import Mathlib

/-!
Shallow embedding of the Library Management System CRUD API
(`src/app/api.py`, FastAPI + MySQL) and verification of its loan-lifecycle
and availability-count specification.

Rows of the MySQL tables are modelled as Lean structures, the database as
lists of rows plus the auto-increment counters and the SQL clock
(`NOW()` / `CURDATE()`), and each endpoint handler as a function from the
database and the parsed request to the database after all statements that
committed together with the HTTP reply.  Machine integers are modelled as
`Int` (MySQL signed INT; overflow is irrelevant at the sizes involved),
dates as `Int` day numbers, and DECIMAL prices as `Rat`.

The SQL schema itself is not part of `src/`; the parts of it the handlers
rely on (unique keys, column defaults) are modelled from the spec and
marked `Modelled from the spec:` below.
-/

/-- `loan_status` enum of the `loan_transactions` table
(values listed in the `status` query pattern of `get_loans`, api.py line 716). -/
inductive LoanStatus
  | Active
  | Returned
  | Overdue
  | Lost
  | Damaged
deriving DecidableEq

/-- A row of the `books` table (columns as selected throughout api.py;
`BookResponse`, api.py lines 112-130).  Dates are day numbers. -/
structure Book where
  book_id : Nat
  isbn : String
  title : String
  subtitle : Option String
  publication_date : Option Int
  edition : Nat
  pages : Option Nat
  language : String
  book_condition : String
  location_shelf : Option String
  total_copies : Int
  available_copies : Int
  price : Option Rat
  publisher_id : Option Nat
  category_id : Nat
  created_at : Int
  updated_at : Int
deriving DecidableEq

/-- A row of the `members` table (`MemberResponse`, api.py lines 180-200). -/
structure Member where
  member_id : Nat
  membership_number : String
  first_name : String
  last_name : String
  date_of_birth : Option Int
  gender : Option String
  email : Option String
  phone_number : Option String
  address : Option String
  city : Option String
  postal_code : Option String
  membership_type : String
  membership_start_date : Int
  membership_expiry_date : Int
  is_active : Bool
  max_books_allowed : Nat
  created_at : Int
  updated_at : Int
deriving DecidableEq

/-- A row of the `loan_transactions` table (columns used by `create_loan`,
`return_book` and `get_loans`, api.py lines 652-783). -/
structure LoanTransaction where
  transaction_id : Nat
  member_id : Nat
  book_id : Nat
  staff_id : Option Nat
  loan_date : Int
  due_date : Int
  return_date : Option Int
  loan_status : LoanStatus
  notes : Option String
  updated_at : Int
deriving DecidableEq

/-- A row of the `categories` table (joined in `get_books`). -/
structure Category where
  category_id : Nat
  category_name : String
deriving DecidableEq

/-- A row of the `authors` table (joined in `get_books`). -/
structure Author where
  author_id : Nat
  first_name : String
  last_name : String
deriving DecidableEq

/-- A row of the `book_authors` link table. -/
structure BookAuthor where
  book_id : Nat
  author_id : Nat
  author_role : String
deriving DecidableEq

/-- The database state: one list per table, the `AUTO_INCREMENT` counters
(`LAST_INSERT_ID`), and the SQL clock (`NOW()` / `CURDATE()` as one day
number; wall-clock time does not matter to any claim). -/
structure DB where
  books : List Book
  members : List Member
  loans : List LoanTransaction
  book_authors : List BookAuthor
  categories : List Category
  authors : List Author
  next_book_id : Nat
  next_member_id : Nat
  next_transaction_id : Nat
  now : Int
deriving DecidableEq

/-- An `HTTPException(status_code, detail)`; the registered exception handler
(api.py lines 789-794) renders it as `{success: false, message: detail}`
with that status code. -/
structure ApiError where
  status_code : Nat
  detail : String
deriving DecidableEq

/-- Payload placed in the `data` field of a `StandardResponse` by the
create endpoints (`{"book_id": id}` api.py line 506, `{"member_id": id}`
line 1023). -/
inductive ResponseData
  | book_id (id : Nat)
  | member_id (id : Nat)
deriving DecidableEq

/-- `StandardResponse` (api.py lines 218-221): `data` defaults to `None`. -/
structure StandardResponse where
  success : Bool := true
  message : String
  data : Option ResponseData := none
deriving DecidableEq

/-- Outcome of one request: either the success body with the HTTP status code
fixed by the route decorator, or the `HTTPException` raised. -/
inductive Reply (α : Type)
  | ok (status_code : Nat) (body : α)
  | err (e : ApiError)
deriving DecidableEq

/-- `SELECT ... FROM books WHERE book_id = %s` with `fetch_one` (first
matching row or none). -/
def findBook (db : DB) (id : Nat) : Option Book :=
  db.books.find? (fun b => decide (b.book_id = id))

/-- `SELECT ... FROM members WHERE member_id = %s` with `fetch_one`. -/
def findMember (db : DB) (id : Nat) : Option Member :=
  db.members.find? (fun m => decide (m.member_id = id))

/-- `SELECT COUNT(*) FROM loan_transactions WHERE member_id = %s AND
loan_status = "Active"` (api.py lines 668-671). -/
def activeLoanCountOfMember (db : DB) (mid : Nat) : Nat :=
  (db.loans.filter
    (fun l => decide (l.member_id = mid ∧ l.loan_status = LoanStatus.Active))).length

/-- `SELECT COUNT(*) FROM loan_transactions WHERE book_id = %s AND
loan_status = "Active"` (api.py lines 868-871). -/
def activeLoanCountOfBook (db : DB) (bid : Nat) : Nat :=
  (db.loans.filter
    (fun l => decide (l.book_id = bid ∧ l.loan_status = LoanStatus.Active))).length

/-- `UPDATE books SET available_copies = available_copies - 1 WHERE
book_id = %s` (api.py line 685): every row matching the WHERE is updated. -/
def decrementAvailable (db : DB) (bid : Nat) : DB :=
  { db with books := db.books.map (fun b =>
      if b.book_id = bid then { b with available_copies := b.available_copies - 1 } else b) }

/-- `UPDATE books SET available_copies = available_copies + 1 WHERE
book_id = %s` (api.py line 707). -/
def incrementAvailable (db : DB) (bid : Nat) : DB :=
  { db with books := db.books.map (fun b =>
      if b.book_id = bid then { b with available_copies := b.available_copies + 1 } else b) }

/-- Body of `POST /api/loans` (`LoanCreate`, api.py lines 638-650). -/
structure LoanCreate where
  member_id : Nat
  book_id : Nat
  staff_id : Option Nat
  loan_date : Int
  due_date : Int
  notes : Option String
deriving DecidableEq

/-- The `validate_due_date` pydantic validator (api.py lines 646-650):
`due_date > loan_date`. -/
def LoanCreate.validate_due_date (loan : LoanCreate) : Bool :=
  decide (loan.loan_date < loan.due_date)

/-- Full request validation of `LoanCreate`: `member_id` and `book_id` are
`Field(..., gt=0)` and the due-date validator must pass.  FastAPI rejects a
failing body with HTTP 422 before the handler runs. -/
def LoanCreate.valid (loan : LoanCreate) : Bool :=
  decide (0 < loan.member_id) && decide (0 < loan.book_id) && loan.validate_due_date

/-- The new `loan_transactions` row inserted by `create_loan`
(api.py lines 676-682).  `Modelled from the spec:` the schema (not in
`src/`) gives `loan_status` the column default `Active` — the spec states
"insert LoanTransaction(status=Active)" — and the row id comes from
`AUTO_INCREMENT`. -/
def newLoanRow (next_transaction_id : Nat) (now : Int) (loan : LoanCreate) : LoanTransaction :=
  { transaction_id := next_transaction_id
    member_id := loan.member_id
    book_id := loan.book_id
    staff_id := loan.staff_id
    loan_date := loan.loan_date
    due_date := loan.due_date
    return_date := none
    loan_status := LoanStatus.Active
    notes := loan.notes
    updated_at := now }

/-- `INSERT INTO loan_transactions ...` (api.py lines 676-682), committed by
its own `execute_query` call. -/
def insertLoanRow (db : DB) (loan : LoanCreate) : DB :=
  { db with
    loans := db.loans ++ [newLoanRow db.next_transaction_id db.now loan]
    next_transaction_id := db.next_transaction_id + 1 }

/-- `create_loan` (api.py lines 652-687), the handler of `POST /api/loans`
(success status 201 from the route decorator).  Checks in source order:
book availability, member existence, member activity, loan count versus
`max_books_allowed`; then the loan INSERT and the availability UPDATE, each
run through its own `execute_query` call.  All checks are SELECTs, so every
error branch leaves the database unchanged. -/
def create_loan (db : DB) (loan : LoanCreate) : DB × Reply StandardResponse :=
  match findBook db loan.book_id with
  | none => (db, Reply.err ⟨400, "Book is not available for loan"⟩)
  | some book =>
    if book.available_copies ≤ 0 then
      (db, Reply.err ⟨400, "Book is not available for loan"⟩)
    else
      match findMember db loan.member_id with
      | none => (db, Reply.err ⟨404, "Member not found"⟩)
      | some member =>
        if !member.is_active then
          (db, Reply.err ⟨400, "Member account is not active"⟩)
        else if member.max_books_allowed ≤ activeLoanCountOfMember db loan.member_id then
          (db, Reply.err ⟨400, "Member has reached maximum book loan limit"⟩)
        else
          let db1 := insertLoanRow db loan
          let db2 := decrementAvailable db1 loan.book_id
          (db2, Reply.ok 201 { message := "Book loan created successfully" })

/-- `POST /api/loans` including the pydantic validation layer: an invalid
body is rejected with HTTP 422 before `create_loan` runs. -/
def post_loans (db : DB) (loan : LoanCreate) : DB × Reply StandardResponse :=
  if !loan.valid then
    (db, Reply.err ⟨422, "Request validation failed"⟩)
  else
    create_loan db loan

/-- `create_loan` in the run where the availability UPDATE (api.py line 685)
raises a `mysql.connector.Error`.  Each `execute_query` call commits
independently (api.py line 283) and rolls back only its own statement
(line 287), so the loan INSERT of line 682 has already committed when the
UPDATE fails; `execute_query` converts the failure into
`HTTPException(500)` which propagates out of the handler. -/
def create_loan_updateErr (db : DB) (loan : LoanCreate) : DB × Reply StandardResponse :=
  match findBook db loan.book_id with
  | none => (db, Reply.err ⟨400, "Book is not available for loan"⟩)
  | some book =>
    if book.available_copies ≤ 0 then
      (db, Reply.err ⟨400, "Book is not available for loan"⟩)
    else
      match findMember db loan.member_id with
      | none => (db, Reply.err ⟨404, "Member not found"⟩)
      | some member =>
        if !member.is_active then
          (db, Reply.err ⟨400, "Member account is not active"⟩)
        else if member.max_books_allowed ≤ activeLoanCountOfMember db loan.member_id then
          (db, Reply.err ⟨400, "Member has reached maximum book loan limit"⟩)
        else
          let db1 := insertLoanRow db loan
          (db1, Reply.err ⟨500, "Database error: availability update failed"⟩)

/-- The status UPDATE of `return_book` (api.py lines 701-704): its WHERE
clause matches on `transaction_id` alone, so it rewrites every row with
that id. -/
def markLoanReturned (db : DB) (transaction_id : Nat) : DB :=
  { db with loans := db.loans.map (fun l =>
      if l.transaction_id = transaction_id then
        { l with loan_status := LoanStatus.Returned
                 return_date := some db.now
                 updated_at := db.now }
      else l) }

/-- `return_book` (api.py lines 689-709), the handler of
`PUT /api/loans/{transaction_id}/return`.  The SELECT requires
`loan_status = 'Active'`; a `fetch_one` miss yields 404 before any
mutation. -/
def return_book (db : DB) (transaction_id : Nat) : DB × Reply StandardResponse :=
  match db.loans.find?
      (fun l => decide (l.transaction_id = transaction_id ∧
                        l.loan_status = LoanStatus.Active)) with
  | none => (db, Reply.err ⟨404, "Active loan not found"⟩)
  | some loan =>
    let db1 := markLoanReturned db transaction_id
    let db2 := incrementAvailable db1 loan.book_id
    (db2, Reply.ok 200 { message := "Book returned successfully" })

/-- Body of `POST /api/books` (`BookCreate`, api.py lines 69-93).  The
`authors` list carries `(author_id, role)`, the role defaulting to
`"Primary Author"` at extraction (api.py line 502). -/
structure BookCreate where
  isbn : String
  title : String
  subtitle : Option String := none
  publication_date : Option Int := none
  edition : Nat := 1
  pages : Option Nat := none
  language : String := "English"
  book_condition : String := "New"
  location_shelf : Option String := none
  total_copies : Int
  available_copies : Option Int := none
  price : Option Rat := none
  publisher_id : Option Nat := none
  category_id : Nat
  authors : List (Nat × String) := []
deriving DecidableEq

/-- Pydantic validation of `BookCreate` (field constraints of api.py
lines 70-90, including the `validate_available_copies` validator that
rejects `available_copies > total_copies`). -/
def BookCreate.valid (b : BookCreate) : Bool :=
  decide (10 ≤ b.isbn.length) && decide (b.isbn.length ≤ 17) &&
  decide (1 ≤ b.title.length) && decide (b.title.length ≤ 200) &&
  (match b.subtitle with | none => true | some s => decide (s.length ≤ 200)) &&
  decide (1 ≤ b.edition) &&
  (match b.pages with | none => true | some p => decide (0 < p)) &&
  decide (b.language.length ≤ 30) &&
  decide (b.book_condition ∈ ["New", "Good", "Fair", "Poor", "Damaged"]) &&
  (match b.location_shelf with | none => true | some s => decide (s.length ≤ 20)) &&
  decide (1 ≤ b.total_copies) &&
  (match b.available_copies with
   | none => true
   | some v => decide (0 ≤ v) && decide (v ≤ b.total_copies)) &&
  (match b.price with | none => true | some p => decide (0 ≤ p)) &&
  decide (0 < b.category_id)

/-- The `books` row inserted by `create_book` (api.py lines 470-486):
`available_copies` defaults to `total_copies` when absent (line 478).
`Modelled from the spec:` the row id comes from `AUTO_INCREMENT`
(`LAST_INSERT_ID()`, line 494) and the timestamp columns from the schema,
which is not in `src/`. -/
def newBookRow (db : DB) (book : BookCreate) : Book :=
  { book_id := db.next_book_id
    isbn := book.isbn
    title := book.title
    subtitle := book.subtitle
    publication_date := book.publication_date
    edition := book.edition
    pages := book.pages
    language := book.language
    book_condition := book.book_condition
    location_shelf := book.location_shelf
    total_copies := book.total_copies
    available_copies := book.available_copies.getD book.total_copies
    price := book.price
    publisher_id := book.publisher_id
    category_id := book.category_id
    created_at := db.now
    updated_at := db.now }

/-- `create_book` (api.py lines 465-512), handler of `POST /api/books`
(success status 201).  `Modelled from the spec:` the schema (not in `src/`)
has a unique key on `isbn`, so inserting a duplicate raises
`mysql.connector.IntegrityError`.  That error is raised inside
`execute_transaction`, whose `except mysql.connector.Error` clause
(api.py lines 319-323) catches it — `IntegrityError` subclasses
`mysql.connector.Error` — rolls back and raises `HTTPException(500)`.
The handler's own `except mysql.connector.IntegrityError` clause mapping
duplicates to 409 (api.py lines 509-511) therefore never fires: an
`HTTPException` is not a `mysql.connector` error. -/
def create_book (db : DB) (book : BookCreate) : DB × Reply StandardResponse :=
  if !book.valid then
    (db, Reply.err ⟨422, "Request validation failed"⟩)
  else if db.books.any (fun b => decide (b.isbn = book.isbn)) then
    (db, Reply.err ⟨500, "Database error: Duplicate entry for key books.isbn"⟩)
  else
    let book_id := db.next_book_id
    let db1 := { db with books := db.books ++ [newBookRow db book]
                         next_book_id := db.next_book_id + 1 }
    let db2 := { db1 with book_authors := db1.book_authors ++
                   book.authors.map (fun a => ⟨book_id, a.1, a.2⟩) }
    (db2, Reply.ok 201
      { message := "Book created successfully"
        data := some (ResponseData.book_id book_id) })

/-- Body of `PUT /api/books/{book_id}` (`BookUpdate`, api.py lines 95-110).
A field is `none` when it was omitted from the request or supplied as
`null`: both are skipped identically by the handler (`exclude_unset` plus
the `value is not None` test, api.py lines 526-529). -/
structure BookUpdate where
  isbn : Option String := none
  title : Option String := none
  subtitle : Option String := none
  publication_date : Option Int := none
  edition : Option Nat := none
  pages : Option Nat := none
  language : Option String := none
  book_condition : Option String := none
  location_shelf : Option String := none
  total_copies : Option Int := none
  available_copies : Option Int := none
  price : Option Rat := none
  publisher_id : Option Nat := none
  category_id : Option Nat := none
  authors : Option (List (Nat × String)) := none
deriving DecidableEq

/-- Pydantic validation of `BookUpdate`: per-field constraints only.
`BookUpdate` declares no validator, so — unlike `BookCreate` —
`available_copies` is checked `ge=0` but never against `total_copies`. -/
def BookUpdate.valid (u : BookUpdate) : Bool :=
  (match u.isbn with | none => true | some s => decide (10 ≤ s.length) && decide (s.length ≤ 17)) &&
  (match u.title with | none => true | some s => decide (1 ≤ s.length) && decide (s.length ≤ 200)) &&
  (match u.subtitle with | none => true | some s => decide (s.length ≤ 200)) &&
  (match u.edition with | none => true | some e => decide (1 ≤ e)) &&
  (match u.pages with | none => true | some p => decide (0 < p)) &&
  (match u.language with | none => true | some s => decide (s.length ≤ 30)) &&
  (match u.book_condition with
   | none => true
   | some s => decide (s ∈ ["New", "Good", "Fair", "Poor", "Damaged"])) &&
  (match u.location_shelf with | none => true | some s => decide (s.length ≤ 20)) &&
  (match u.total_copies with | none => true | some v => decide (1 ≤ v)) &&
  (match u.available_copies with | none => true | some v => decide (0 ≤ v)) &&
  (match u.price with | none => true | some p => decide (0 ≤ p)) &&
  (match u.category_id with | none => true | some c => decide (0 < c))

/-- Whether the dynamic `UPDATE books SET ...` has at least one column to
write: some non-`authors` field is present and non-null (api.py
lines 526-531). -/
def BookUpdate.hasFieldUpdates (u : BookUpdate) : Bool :=
  u.isbn.isSome || u.title.isSome || u.subtitle.isSome ||
  u.publication_date.isSome || u.edition.isSome || u.pages.isSome ||
  u.language.isSome || u.book_condition.isSome || u.location_shelf.isSome ||
  u.total_copies.isSome || u.available_copies.isSome || u.price.isSome ||
  u.publisher_id.isSome || u.category_id.isSome

/-- Effect of the dynamic `UPDATE books SET {fields}, updated_at = NOW()`
on one row (api.py line 532): present fields are written, absent ones kept. -/
def applyBookUpdate (u : BookUpdate) (now : Int) (b : Book) : Book :=
  { b with
    isbn := u.isbn.getD b.isbn
    title := u.title.getD b.title
    subtitle := match u.subtitle with | none => b.subtitle | some s => some s
    publication_date := match u.publication_date with
                        | none => b.publication_date
                        | some d => some d
    edition := u.edition.getD b.edition
    pages := match u.pages with | none => b.pages | some p => some p
    language := u.language.getD b.language
    book_condition := u.book_condition.getD b.book_condition
    location_shelf := match u.location_shelf with
                      | none => b.location_shelf
                      | some s => some s
    total_copies := u.total_copies.getD b.total_copies
    available_copies := u.available_copies.getD b.available_copies
    price := match u.price with | none => b.price | some p => some p
    publisher_id := match u.publisher_id with
                    | none => b.publisher_id
                    | some p => some p
    category_id := u.category_id.getD b.category_id
    updated_at := now }

/-- `update_book` (api.py lines 514-546), handler of
`PUT /api/books/{book_id}`.  When no column survives the null/omitted
filter, no `UPDATE books` statement is issued at all — `updated_at`
included (api.py line 531).  Setting `isbn` to another book's ISBN would
violate the unique key; `execute_query` converts that into
`HTTPException(500)` (api.py lines 285-289). -/
def update_book (db : DB) (book_id : Nat) (u : BookUpdate) : DB × Reply StandardResponse :=
  if !u.valid then
    (db, Reply.err ⟨422, "Request validation failed"⟩)
  else
    match findBook db book_id with
    | none => (db, Reply.err ⟨404, "Book not found"⟩)
    | some _ =>
      if (match u.isbn with
          | some i => db.books.any (fun b => decide (b.isbn = i ∧ b.book_id ≠ book_id))
          | none => false) then
        (db, Reply.err ⟨500, "Database error: Duplicate entry for key books.isbn"⟩)
      else
        let db1 := if u.hasFieldUpdates then
            { db with books := db.books.map (fun b =>
                if b.book_id = book_id then applyBookUpdate u db.now b else b) }
          else db
        let db2 := match u.authors with
          | none => db1
          | some links =>
            { db1 with book_authors :=
                (db1.book_authors.filter (fun ba => decide (ba.book_id ≠ book_id))) ++
                links.map (fun a => ⟨book_id, a.1, a.2⟩) }
        (db2, Reply.ok 200 { message := "Book updated successfully" })

/-- `delete_book` (api.py lines 859-879), handler of
`DELETE /api/books/{book_id}`: blocked while the book has Active loans;
otherwise a hard delete whose `CASCADE` removes the `book_authors` links. -/
def delete_book (db : DB) (book_id : Nat) : DB × Reply StandardResponse :=
  match findBook db book_id with
  | none => (db, Reply.err ⟨404, "Book not found"⟩)
  | some _ =>
    if 0 < activeLoanCountOfBook db book_id then
      (db, Reply.err ⟨400, "Cannot delete book with active loans"⟩)
    else
      ({ db with
          books := db.books.filter (fun b => decide (b.book_id ≠ book_id))
          book_authors := db.book_authors.filter (fun ba => decide (ba.book_id ≠ book_id)) },
       Reply.ok 200 { message := "Book deleted successfully" })

/-- Body of `POST /api/members` (`MemberCreate` = `MemberBase`, api.py
lines 132-161). -/
structure MemberCreate where
  membership_number : String
  first_name : String
  last_name : String
  date_of_birth : Option Int := none
  gender : Option String := none
  email : Option String := none
  phone_number : Option String := none
  address : Option String := none
  city : Option String := none
  postal_code : Option String := none
  membership_type : String := "Regular"
  membership_start_date : Int
  membership_expiry_date : Int
  max_books_allowed : Nat := 5
deriving DecidableEq

/-- Pydantic validation of `MemberCreate`: field constraints plus the
`validate_expiry_date` (expiry after start) and `validate_birth_date`
(not in the future, against `date.today()`) validators
(api.py lines 133-158). -/
def MemberCreate.valid (m : MemberCreate) (today : Int) : Bool :=
  decide (1 ≤ m.membership_number.length) && decide (m.membership_number.length ≤ 20) &&
  decide (1 ≤ m.first_name.length) && decide (m.first_name.length ≤ 50) &&
  decide (1 ≤ m.last_name.length) && decide (m.last_name.length ≤ 50) &&
  (match m.gender with
   | none => true
   | some g => decide (g ∈ ["Male", "Female", "Other"])) &&
  (match m.phone_number with | none => true | some s => decide (s.length ≤ 20)) &&
  (match m.address with | none => true | some s => decide (s.length ≤ 255)) &&
  (match m.city with | none => true | some s => decide (s.length ≤ 50)) &&
  (match m.postal_code with | none => true | some s => decide (s.length ≤ 10)) &&
  decide (m.membership_type ∈ ["Regular", "Student", "Senior", "Premium"]) &&
  decide (0 < m.max_books_allowed) &&
  decide (m.membership_start_date < m.membership_expiry_date) &&
  (match m.date_of_birth with | none => true | some d => decide (d ≤ today))

/-- The `members` row inserted by `create_member` (api.py lines 1000-1013).
`Modelled from the spec:` the schema (not in `src/`) defaults `is_active`
to true — the spec treats a fresh member as active, deactivated only by the
soft delete — and supplies the `AUTO_INCREMENT` id and timestamps. -/
def newMemberRow (db : DB) (m : MemberCreate) : Member :=
  { member_id := db.next_member_id
    membership_number := m.membership_number
    first_name := m.first_name
    last_name := m.last_name
    date_of_birth := m.date_of_birth
    gender := m.gender
    email := m.email
    phone_number := m.phone_number
    address := m.address
    city := m.city
    postal_code := m.postal_code
    membership_type := m.membership_type
    membership_start_date := m.membership_start_date
    membership_expiry_date := m.membership_expiry_date
    is_active := true
    max_books_allowed := m.max_books_allowed
    created_at := db.now
    updated_at := db.now }

/-- Whether inserting `m` violates the unique keys on `membership_number`
or `email` (`Modelled from the spec:` the schema is not in `src/`; the
spec makes both unique; MySQL unique keys ignore NULL email). -/
def memberDuplicate (db : DB) (m : MemberCreate) : Bool :=
  db.members.any (fun x =>
    decide (x.membership_number = m.membership_number) ||
    (x.email.isSome && decide (x.email = m.email)))

/-- `create_member` (api.py lines 996-1029), handler of `POST /api/members`
(success status 201).  As with `create_book`, a duplicate key raises
`IntegrityError` inside `execute_query`, whose `except
mysql.connector.Error` clause converts it into `HTTPException(500)`
(api.py lines 285-289) before the handler's 409 mapping (lines 1026-1028)
can see it. -/
def create_member (db : DB) (m : MemberCreate) : DB × Reply StandardResponse :=
  if !m.valid db.now then
    (db, Reply.err ⟨422, "Request validation failed"⟩)
  else if memberDuplicate db m then
    (db, Reply.err ⟨500, "Database error: Duplicate entry for key members"⟩)
  else
    let member_id := db.next_member_id
    ({ db with members := db.members ++ [newMemberRow db m]
               next_member_id := db.next_member_id + 1 },
     Reply.ok 201
       { message := "Member created successfully"
         data := some (ResponseData.member_id member_id) })

/-- Body of `PUT /api/members/{member_id}` (`MemberUpdate`, api.py
lines 163-178).  `none` covers both an omitted field and an explicit null;
the handler skips both (api.py lines 1043-1046). -/
structure MemberUpdate where
  membership_number : Option String := none
  first_name : Option String := none
  last_name : Option String := none
  date_of_birth : Option Int := none
  gender : Option String := none
  email : Option String := none
  phone_number : Option String := none
  address : Option String := none
  city : Option String := none
  postal_code : Option String := none
  membership_type : Option String := none
  membership_start_date : Option Int := none
  membership_expiry_date : Option Int := none
  is_active : Option Bool := none
  max_books_allowed : Option Nat := none
deriving DecidableEq

/-- Pydantic validation of `MemberUpdate`: per-field constraints only;
`MemberUpdate` declares no cross-field validator. -/
def MemberUpdate.valid (u : MemberUpdate) : Bool :=
  (match u.membership_number with
   | none => true
   | some s => decide (1 ≤ s.length) && decide (s.length ≤ 20)) &&
  (match u.first_name with
   | none => true
   | some s => decide (1 ≤ s.length) && decide (s.length ≤ 50)) &&
  (match u.last_name with
   | none => true
   | some s => decide (1 ≤ s.length) && decide (s.length ≤ 50)) &&
  (match u.gender with
   | none => true
   | some g => decide (g ∈ ["Male", "Female", "Other"])) &&
  (match u.phone_number with | none => true | some s => decide (s.length ≤ 20)) &&
  (match u.address with | none => true | some s => decide (s.length ≤ 255)) &&
  (match u.city with | none => true | some s => decide (s.length ≤ 50)) &&
  (match u.postal_code with | none => true | some s => decide (s.length ≤ 10)) &&
  (match u.membership_type with
   | none => true
   | some t => decide (t ∈ ["Regular", "Student", "Senior", "Premium"])) &&
  (match u.max_books_allowed with | none => true | some n => decide (0 < n))

/-- Whether the dynamic `UPDATE members SET ...` has at least one column to
write (api.py lines 1043-1048; unlike `update_book` there is no excluded
field). -/
def MemberUpdate.hasFieldUpdates (u : MemberUpdate) : Bool :=
  u.membership_number.isSome || u.first_name.isSome || u.last_name.isSome ||
  u.date_of_birth.isSome || u.gender.isSome || u.email.isSome ||
  u.phone_number.isSome || u.address.isSome || u.city.isSome ||
  u.postal_code.isSome || u.membership_type.isSome ||
  u.membership_start_date.isSome || u.membership_expiry_date.isSome ||
  u.is_active.isSome || u.max_books_allowed.isSome

/-- Effect of the dynamic `UPDATE members SET {fields}, updated_at = NOW()`
on one row (api.py line 1049). -/
def applyMemberUpdate (u : MemberUpdate) (now : Int) (m : Member) : Member :=
  { m with
    membership_number := u.membership_number.getD m.membership_number
    first_name := u.first_name.getD m.first_name
    last_name := u.last_name.getD m.last_name
    date_of_birth := match u.date_of_birth with
                     | none => m.date_of_birth
                     | some d => some d
    gender := match u.gender with | none => m.gender | some g => some g
    email := match u.email with | none => m.email | some e => some e
    phone_number := match u.phone_number with
                    | none => m.phone_number
                    | some p => some p
    address := match u.address with | none => m.address | some a => some a
    city := match u.city with | none => m.city | some c => some c
    postal_code := match u.postal_code with
                   | none => m.postal_code
                   | some p => some p
    membership_type := u.membership_type.getD m.membership_type
    membership_start_date := u.membership_start_date.getD m.membership_start_date
    membership_expiry_date := u.membership_expiry_date.getD m.membership_expiry_date
    is_active := u.is_active.getD m.is_active
    max_books_allowed := u.max_books_allowed.getD m.max_books_allowed
    updated_at := now }

/-- `update_member` (api.py lines 1031-1053), handler of
`PUT /api/members/{member_id}`.  When every field is null or omitted, no
`UPDATE` statement runs and the row — `updated_at` included — is untouched.
Writing a duplicate `membership_number`/`email` would violate a unique key
and surface as `HTTPException(500)` out of `execute_query`. -/
def update_member (db : DB) (member_id : Nat) (u : MemberUpdate) : DB × Reply StandardResponse :=
  if !u.valid then
    (db, Reply.err ⟨422, "Request validation failed"⟩)
  else
    match findMember db member_id with
    | none => (db, Reply.err ⟨404, "Member not found"⟩)
    | some _ =>
      if db.members.any (fun x =>
          decide (x.member_id ≠ member_id) &&
          ((match u.membership_number with
            | some n => decide (x.membership_number = n)
            | none => false) ||
           (match u.email with
            | some e => x.email.isSome && decide (x.email = some e)
            | none => false))) then
        (db, Reply.err ⟨500, "Database error: Duplicate entry for key members"⟩)
      else
        let db1 := if u.hasFieldUpdates then
            { db with members := db.members.map (fun m =>
                if m.member_id = member_id then applyMemberUpdate u db.now m else m) }
          else db
        (db1, Reply.ok 200 { message := "Member updated successfully" })

/-- `delete_member` (api.py lines 549-572), handler of
`DELETE /api/members/{member_id}`: blocked while the member has Active
loans; otherwise a soft delete (`is_active = 0`, `updated_at = NOW()`). -/
def delete_member (db : DB) (member_id : Nat) : DB × Reply StandardResponse :=
  match findMember db member_id with
  | none => (db, Reply.err ⟨404, "Member not found"⟩)
  | some _ =>
    if 0 < activeLoanCountOfMember db member_id then
      (db, Reply.err
        ⟨400, "Cannot delete member with active loans. Please return all books first."⟩)
    else
      ({ db with members := db.members.map (fun m =>
          if m.member_id = member_id then
            { m with is_active := false, updated_at := db.now }
          else m) },
       Reply.ok 200 { message := "Member deactivated successfully" })

/-- Whether `pat` is a prefix of `s`, on character lists. -/
def charsPrefix : List Char → List Char → Bool
  | [], _ => true
  | _ :: _, [] => false
  | c :: cs, d :: ds => c == d && charsPrefix cs ds

/-- Whether `pat` occurs as a contiguous substring of `s`, on character
lists. -/
def charsInfix (pat : List Char) : List Char → Bool
  | [] => charsPrefix pat []
  | d :: ds => charsPrefix pat (d :: ds) || charsInfix pat ds

/-- MySQL `LIKE '%pat%'` under the default case-insensitive collation:
case-folded substring match. -/
def likeContains (pat s : String) : Bool :=
  charsInfix (pat.data.map Char.toLower) (s.data.map Char.toLower)

/-- Case-folded lexicographic comparison of two titles (MySQL `ORDER BY
b.title` under the default case-insensitive collation). -/
def charsLe : List Char → List Char → Bool
  | [], _ => true
  | _ :: _, [] => false
  | c :: cs, d :: ds =>
    if c.val < d.val then true
    else if d.val < c.val then false
    else charsLe cs ds

/-- `ORDER BY b.title`: stable insertion of one book into a sorted list. -/
def insertByTitle (x : Book) : List Book → List Book
  | [] => [x]
  | y :: ys =>
    if charsLe (x.title.data.map Char.toLower) (y.title.data.map Char.toLower) then
      x :: y :: ys
    else
      y :: insertByTitle x ys

/-- `ORDER BY b.title` over a whole result set (insertion sort; the claims
depend only on it being a reordering). -/
def sortByTitle : List Book → List Book
  | [] => []
  | x :: xs => insertByTitle x (sortByTitle xs)

/-- The WHERE clause built by `get_books` (api.py lines 351-384) for one
book: optional case-insensitive substring search over title/ISBN/author
name (via the `book_authors`/`authors` joins), optional category-name
equality (via the `categories` join), optional availability filter
(`> 0` when true, `= 0` when false).  Python's `if search:` treats the
empty string as absent. -/
def booksMatch (db : DB) (search : Option String) (category : Option String)
    (available : Option Bool) (b : Book) : Bool :=
  (match search with
   | none => true
   | some s =>
     if s = "" then true
     else
       likeContains s b.title || likeContains s b.isbn ||
       db.book_authors.any (fun ba => decide (ba.book_id = b.book_id) &&
         db.authors.any (fun a => decide (a.author_id = ba.author_id) &&
           likeContains s (a.first_name ++ " " ++ a.last_name)))) &&
  (match category with
   | none => true
   | some c =>
     if c = "" then true
     else db.categories.any (fun cat =>
       decide (cat.category_id = b.category_id ∧ cat.category_name = c))) &&
  (match available with
   | none => true
   | some av =>
     if av then decide (0 < b.available_copies) else decide (b.available_copies = 0))

/-- `PaginationResponse` (api.py lines 202-206). -/
structure PaginationResponse where
  page : Nat
  limit : Nat
  total : Nat
  pages : Nat
deriving DecidableEq

/-- `BookListResponse` (api.py lines 208-211); `data` carries the page of
rows. -/
structure BookListResponse where
  success : Bool := true
  data : List Book
  pagination : PaginationResponse
deriving DecidableEq

/-- `get_books` (api.py lines 339-423), handler of `GET /api/books`.
Query-parameter validation (`page ≥ 1`, `1 ≤ limit ≤ 100`) is done by
FastAPI with HTTP 422.  `offset = (page - 1) * limit` (line 348); the rows
are the `LIMIT %s OFFSET %s` slice of the ordered filtered set (line 387);
`total` is the count of the same WHERE clause without pagination
(lines 393-413); `pages = (total + limit - 1) // limit` (line 421). -/
def get_books (db : DB) (page : Nat) (limit : Nat) (search : Option String)
    (category : Option String) (available : Option Bool) : DB × Reply BookListResponse :=
  if !(decide (1 ≤ page) && decide (1 ≤ limit) && decide (limit ≤ 100)) then
    (db, Reply.err ⟨422, "Request validation failed"⟩)
  else
    let offset := (page - 1) * limit
    let matching := db.books.filter (booksMatch db search category available)
    let rows := ((sortByTitle matching).drop offset).take limit
    let total := matching.length
    (db, Reply.ok 200
      { data := rows
        pagination :=
          { page := page, limit := limit, total := total,
            pages := (total + limit - 1) / limit } })

/-- One mutating API call, for reasoning about arbitrary operation
sequences. -/
inductive Op
  | createBook (b : BookCreate)
  | updateBook (id : Nat) (u : BookUpdate)
  | deleteBook (id : Nat)
  | createMember (m : MemberCreate)
  | updateMember (id : Nat) (u : MemberUpdate)
  | deleteMember (id : Nat)
  | borrow (l : LoanCreate)
  | returnLoan (tid : Nat)
deriving DecidableEq

/-- State reached after one API call (the reply is discarded; error
replies leave the state as the handler left it). -/
def applyOp (db : DB) : Op → DB
  | Op.createBook b => (create_book db b).1
  | Op.updateBook id u => (update_book db id u).1
  | Op.deleteBook id => (delete_book db id).1
  | Op.createMember m => (create_member db m).1
  | Op.updateMember id u => (update_member db id u).1
  | Op.deleteMember id => (delete_member db id).1
  | Op.borrow l => (post_loans db l).1
  | Op.returnLoan tid => (return_book db tid).1

/-- State reached after a sequence of API calls. -/
def applyOps (db : DB) (ops : List Op) : DB := ops.foldl applyOp db

/-- Whether an operation is a `PUT /api/books/{id}` call. -/
def Op.isBookUpdate : Op → Bool
  | Op.updateBook _ _ => true
  | _ => false

/-- Whether an operation is a `PUT /api/members/{id}` call. -/
def Op.isMemberUpdate : Op → Bool
  | Op.updateMember _ _ => true
  | _ => false

/-- Referential well-formedness of a database state: every row id is below
its table's `AUTO_INCREMENT` counter, loans reference ids already issued,
and primary keys are distinct.  Any state produced by the API from an
empty database satisfies this. -/
def dbWF (db : DB) : Prop :=
  (∀ b ∈ db.books, b.book_id < db.next_book_id) ∧
  (∀ m ∈ db.members, m.member_id < db.next_member_id) ∧
  (∀ l ∈ db.loans, l.transaction_id < db.next_transaction_id) ∧
  (∀ l ∈ db.loans, l.book_id < db.next_book_id) ∧
  (∀ l ∈ db.loans, l.member_id < db.next_member_id) ∧
  (db.books.map Book.book_id).Nodup ∧
  (db.members.map Member.member_id).Nodup ∧
  (db.loans.map LoanTransaction.transaction_id).Nodup

instance (db : DB) : Decidable (dbWF db) := by
  unfold dbWF; infer_instance

/-- The availability ledger: a book's free copies plus its outstanding
Active loans never exceed its total copies, and free copies are never
negative.  This is the inductive strengthening of the spec's
`0 ≤ available_copies ≤ total_copies`. -/
def booksCountInv (db : DB) : Prop :=
  ∀ b ∈ db.books, 0 ≤ b.available_copies ∧
    b.available_copies + (activeLoanCountOfBook db b.book_id : Int) ≤ b.total_copies

instance (db : DB) : Decidable (booksCountInv db) := by
  unfold booksCountInv; infer_instance

/-- The lower half of the spec invariant on its own. -/
def booksLowerInv (db : DB) : Prop :=
  ∀ b ∈ db.books, 0 ≤ b.available_copies

instance (db : DB) : Decidable (booksLowerInv db) := by
  unfold booksLowerInv; infer_instance

/-- Per-member loan-limit invariant: no member holds more Active loans than
their `max_books_allowed`. -/
def memberLimitInv (db : DB) : Prop :=
  ∀ m ∈ db.members, activeLoanCountOfMember db m.member_id ≤ m.max_books_allowed

instance (db : DB) : Decidable (memberLimitInv db) := by
  unfold memberLimitInv; infer_instance

/-- A sequence of `POST /api/loans` calls, one per listed request body —
the bodies may name different members, staff, dates and notes; `none` as
soon as one of them does not succeed. -/
def runBorrowSeq : List LoanCreate → DB → Option DB
  | [], db => some db
  | r :: rs, db =>
    match post_loans db r with
    | (db1, Reply.ok _ _) => runBorrowSeq rs db1
    | _ => none

/-- `PUT /api/loans/{t}/return` for each listed transaction id; `none` as
soon as one of them does not succeed. -/
def runReturns : List Nat → DB → Option DB
  | [], db => some db
  | t :: ts, db =>
    match return_book db t with
    | (db1, Reply.ok _ _) => runReturns ts db1
    | _ => none

theorem List.find?_map_eq {α β : Type} (f : α → β) (p : α → Bool) (q : β → Bool)
    (l : List α) (h : ∀ a, q (f a) = p a) :
    (l.map f).find? q = (l.find? p).map f := by
  induction l with
  | nil => rfl
  | cons a t ih =>
    simp only [List.map_cons, List.find?, h a]
    cases hp : p a
    · simpa using ih
    · rfl

theorem findBook_decrementAvailable (db : DB) (bid id : Nat) :
    findBook (decrementAvailable db bid) id =
      (findBook db id).map (fun b =>
        if b.book_id = bid then { b with available_copies := b.available_copies - 1 }
        else b) := by
  unfold findBook decrementAvailable
  exact List.find?_map_eq _ _ _ db.books (fun b => by
    cases hb : decide (b.book_id = bid) <;> simp_all)

theorem findBook_incrementAvailable (db : DB) (bid id : Nat) :
    findBook (incrementAvailable db bid) id =
      (findBook db id).map (fun b =>
        if b.book_id = bid then { b with available_copies := b.available_copies + 1 }
        else b) := by
  unfold findBook incrementAvailable
  exact List.find?_map_eq _ _ _ db.books (fun b => by
    cases hb : decide (b.book_id = bid) <;> simp_all)

theorem create_loan_ok_parts {db db' : DB} {loan : LoanCreate} {s : Nat}
    {r : StandardResponse}
    (h : create_loan db loan = (db', Reply.ok s r)) :
    db' = decrementAvailable (insertLoanRow db loan) loan.book_id ∧
      s = 201 ∧ r = { message := "Book loan created successfully" } ∧
      ∃ book, findBook db loan.book_id = some book ∧ 0 < book.available_copies ∧
      ∃ member, findMember db loan.member_id = some member ∧
        member.is_active = true ∧
        activeLoanCountOfMember db loan.member_id < member.max_books_allowed := by
  unfold create_loan at h
  split at h
  · simp_all
  next book hbook =>
    split at h
    · simp_all
    next hav =>
      split at h
      · simp_all
      next member hmem =>
        split at h
        · simp_all
        next hact =>
          split at h
          · simp_all
          next hcount =>
            refine ⟨?_, ?_, ?_, book, hbook, by omega, member, hmem, ?_, by omega⟩ <;>
              simp_all

theorem create_loan_err_db {db db' : DB} {loan : LoanCreate} {e : ApiError}
    (h : create_loan db loan = (db', Reply.err e)) : db' = db := by
  unfold create_loan at h
  split at h
  · simp_all
  · split at h
    · simp_all
    · split at h
      · simp_all
      · split at h
        · simp_all
        · split at h
          · simp_all
          · simp_all

theorem post_loans_ok_parts {db db' : DB} {loan : LoanCreate} {s : Nat}
    {r : StandardResponse}
    (h : post_loans db loan = (db', Reply.ok s r)) :
    loan.valid = true ∧ create_loan db loan = (db', Reply.ok s r) := by
  unfold post_loans at h
  split at h
  · simp_all
  next hv =>
    exact ⟨by revert hv; cases loan.valid <;> simp, h⟩

theorem post_loans_err_db {db db' : DB} {loan : LoanCreate} {e : ApiError}
    (h : post_loans db loan = (db', Reply.err e)) : db' = db := by
  unfold post_loans at h
  split at h
  · simp_all
  · exact create_loan_err_db h

theorem return_book_ok_parts {db db' : DB} {tid : Nat} {s : Nat}
    {r : StandardResponse}
    (h : return_book db tid = (db', Reply.ok s r)) :
    ∃ loan,
      db.loans.find? (fun l => decide (l.transaction_id = tid ∧
        l.loan_status = LoanStatus.Active)) = some loan ∧
      db' = incrementAvailable (markLoanReturned db tid) loan.book_id ∧
      s = 200 ∧ r = { message := "Book returned successfully" } := by
  unfold return_book at h
  split at h
  · simp_all
  next loan hloan =>
    exact ⟨loan, hloan, by simp_all, by simp_all, by simp_all⟩

theorem return_book_err_parts {db db' : DB} {tid : Nat} {e : ApiError}
    (h : return_book db tid = (db', Reply.err e)) :
    db' = db ∧ e = ⟨404, "Active loan not found"⟩ ∧
      db.loans.find? (fun l => decide (l.transaction_id = tid ∧
        l.loan_status = LoanStatus.Active)) = none := by
  unfold return_book at h
  split at h
  next hnone => simp_all
  · simp_all

theorem length_filter_map_key {α : Type} (key : α → Nat) (t : Nat)
    (f : α → α) (p : α → Bool) (l : List α)
    (hnd : (l.map key).Nodup) (a : α) (ha : a ∈ l) (hk : key a = t) :
    ((l.map (fun x => if key x = t then f x else x)).filter p).length =
      (l.filter p).length - (if p a then 1 else 0) + (if p (f a) then 1 else 0) := by
  induction l with
  | nil => cases ha
  | cons x xs ih =>
    rw [List.map_cons, List.nodup_cons] at hnd
    by_cases hx : key x = t
    · have hax : a = x := by
        rcases List.mem_cons.1 ha with rfl | hmem
        · rfl
        · exfalso
          apply hnd.1
          have hka : key a ∈ xs.map key := List.mem_map_of_mem key hmem
          rwa [hk, ← hx] at hka
      subst hax
      have htail : xs.map (fun x => if key x = t then f x else x) = xs := by
        have : ∀ y ∈ xs, (if key y = t then f y else y) = y := by
          intro y hy
          have : key y ≠ t := fun hyt => hnd.1 (hx ▸ hyt ▸ List.mem_map_of_mem key hy)
          simp [this]
        calc xs.map (fun x => if key x = t then f x else x) = xs.map id :=
              List.map_congr_left (by simpa using this)
          _ = xs := List.map_id xs
      simp only [List.map_cons, hx, if_pos, htail, List.filter_cons]
      cases hpa : p a <;> cases hpf : p (f a) <;> simp [hpa, hpf]
    · have ha' : a ∈ xs := by
        rcases List.mem_cons.1 ha with rfl | hmem
        · exact absurd hk hx
        · exact hmem
      have hrec := ih hnd.2 ha'
      simp only [List.map_cons, hx, if_neg, List.filter_cons]
      have hge : (if p a = true then 1 else 0) ≤ (xs.filter p).length := by
        cases hpa : p a
        · simp
        · simpa using List.length_pos_of_mem (List.mem_filter.2 ⟨ha', hpa⟩)
      cases hpx : p x <;> (simp [hpx, hrec]; try omega)

theorem activeByBook_markLoanReturned (db : DB) (tid : Nat) (loan : LoanTransaction)
    (hnd : (db.loans.map LoanTransaction.transaction_id).Nodup)
    (hmem : loan ∈ db.loans) (hid : loan.transaction_id = tid)
    (hact : loan.loan_status = LoanStatus.Active) (bid : Nat) :
    activeLoanCountOfBook (markLoanReturned db tid) bid =
      activeLoanCountOfBook db bid - (if loan.book_id = bid then 1 else 0) := by
  unfold activeLoanCountOfBook markLoanReturned
  simp only []
  rw [length_filter_map_key LoanTransaction.transaction_id tid _ _ db.loans hnd loan hmem hid]
  cases hb : decide (loan.book_id = bid) <;>
    simp_all [decide_eq_true_eq]

theorem activeByMember_markLoanReturned (db : DB) (tid : Nat) (loan : LoanTransaction)
    (hnd : (db.loans.map LoanTransaction.transaction_id).Nodup)
    (hmem : loan ∈ db.loans) (hid : loan.transaction_id = tid)
    (hact : loan.loan_status = LoanStatus.Active) (mid : Nat) :
    activeLoanCountOfMember (markLoanReturned db tid) mid =
      activeLoanCountOfMember db mid - (if loan.member_id = mid then 1 else 0) := by
  unfold activeLoanCountOfMember markLoanReturned
  simp only []
  rw [length_filter_map_key LoanTransaction.transaction_id tid _ _ db.loans hnd loan hmem hid]
  cases hb : decide (loan.member_id = mid) <;>
    simp_all [decide_eq_true_eq]

theorem activeByBook_insertLoanRow (db : DB) (loan : LoanCreate) (bid : Nat) :
    activeLoanCountOfBook (insertLoanRow db loan) bid =
      activeLoanCountOfBook db bid + (if loan.book_id = bid then 1 else 0) := by
  unfold activeLoanCountOfBook insertLoanRow newLoanRow
  simp [List.filter_append]
  cases hb : decide (loan.book_id = bid) <;> simp_all [decide_eq_true_eq]

theorem activeByMember_insertLoanRow (db : DB) (loan : LoanCreate) (mid : Nat) :
    activeLoanCountOfMember (insertLoanRow db loan) mid =
      activeLoanCountOfMember db mid + (if loan.member_id = mid then 1 else 0) := by
  unfold activeLoanCountOfMember insertLoanRow newLoanRow
  simp [List.filter_append]
  cases hb : decide (loan.member_id = mid) <;> simp_all [decide_eq_true_eq]

theorem findBook_unique {db : DB} (hnd : (db.books.map Book.book_id).Nodup)
    {b book : Book} (hb : b ∈ db.books) (hfind : findBook db b.book_id = some book) :
    b = book := by
  have hmem := List.mem_of_find?_eq_some hfind
  have hp : book.book_id = b.book_id := by
    simpa using List.find?_some hfind
  exact List.inj_on_of_nodup_map hnd hb hmem hp.symm

theorem findMember_unique {db : DB} (hnd : (db.members.map Member.member_id).Nodup)
    {m mem : Member} (hm : m ∈ db.members) (hfind : findMember db m.member_id = some mem) :
    m = mem := by
  have hmem := List.mem_of_find?_eq_some hfind
  have hp : mem.member_id = m.member_id := by
    simpa using List.find?_some hfind
  exact List.inj_on_of_nodup_map hnd hm hmem hp.symm

theorem create_book_shape (db : DB) (b : BookCreate) :
    (create_book db b).1 = db ∨
    ((create_book db b).1 =
      { db with
          books := db.books ++ [newBookRow db b]
          book_authors := db.book_authors ++
            b.authors.map (fun a => ⟨db.next_book_id, a.1, a.2⟩)
          next_book_id := db.next_book_id + 1 } ∧ b.valid = true) := by
  unfold create_book
  split
  · exact Or.inl rfl
  next hv =>
    split
    · exact Or.inl rfl
    · exact Or.inr ⟨rfl, by revert hv; cases b.valid <;> simp⟩

theorem update_book_shape (db : DB) (id : Nat) (u : BookUpdate) :
    ∃ B A, (update_book db id u).1 = { db with books := B, book_authors := A } ∧
      B.map Book.book_id = db.books.map Book.book_id := by
  unfold update_book
  split
  · exact ⟨db.books, db.book_authors, rfl, rfl⟩
  split
  · exact ⟨db.books, db.book_authors, rfl, rfl⟩
  split
  · exact ⟨db.books, db.book_authors, rfl, rfl⟩
  · have hmap : ∀ (B : List Book), B = db.books ∨
        B = db.books.map (fun b => if b.book_id = id then applyBookUpdate u db.now b else b) →
        B.map Book.book_id = db.books.map Book.book_id := by
      rintro B (rfl | rfl)
      · rfl
      · rw [List.map_map]
        refine List.map_congr_left ?_
        intro b _
        by_cases hb : b.book_id = id <;> simp [Function.comp, hb, applyBookUpdate]
    by_cases hf : u.hasFieldUpdates = true
    · cases hauth : u.authors with
      | none =>
        refine ⟨db.books.map (fun b => if b.book_id = id then applyBookUpdate u db.now b else b),
                db.book_authors, ?_, hmap _ (Or.inr rfl)⟩
        simp [hf, hauth]
      | some links =>
        refine ⟨db.books.map (fun b => if b.book_id = id then applyBookUpdate u db.now b else b),
                (db.book_authors.filter (fun ba => decide (ba.book_id ≠ id))) ++
                  links.map (fun a => ⟨id, a.1, a.2⟩), ?_, hmap _ (Or.inr rfl)⟩
        simp [hf, hauth]
    · cases hauth : u.authors with
      | none =>
        refine ⟨db.books, db.book_authors, ?_, rfl⟩
        simp [hf, hauth]
      | some links =>
        refine ⟨db.books,
                (db.book_authors.filter (fun ba => decide (ba.book_id ≠ id))) ++
                  links.map (fun a => ⟨id, a.1, a.2⟩), ?_, rfl⟩
        simp [hf, hauth]

theorem delete_book_shape (db : DB) (id : Nat) :
    ∃ B A, (delete_book db id).1 = { db with books := B, book_authors := A } ∧
      B.Sublist db.books := by
  unfold delete_book
  split
  · exact ⟨db.books, db.book_authors, rfl, List.Sublist.refl _⟩
  split
  · exact ⟨db.books, db.book_authors, rfl, List.Sublist.refl _⟩
  · exact ⟨_, _, rfl, List.filter_sublist _⟩

theorem create_member_shape (db : DB) (m : MemberCreate) :
    (create_member db m).1 = db ∨
    ((create_member db m).1 =
      { db with
          members := db.members ++ [newMemberRow db m]
          next_member_id := db.next_member_id + 1 } ∧ m.valid db.now = true) := by
  unfold create_member
  split
  · exact Or.inl rfl
  next hv =>
    split
    · exact Or.inl rfl
    · exact Or.inr ⟨rfl, by revert hv; cases m.valid db.now <;> simp⟩

theorem update_member_shape (db : DB) (id : Nat) (u : MemberUpdate) :
    ∃ M, (update_member db id u).1 = { db with members := M } ∧
      M.map Member.member_id = db.members.map Member.member_id := by
  unfold update_member
  split
  · exact ⟨db.members, rfl, rfl⟩
  split
  · exact ⟨db.members, rfl, rfl⟩
  split
  · exact ⟨db.members, rfl, rfl⟩
  · by_cases hf : u.hasFieldUpdates = true
    · refine ⟨db.members.map (fun m =>
          if m.member_id = id then applyMemberUpdate u db.now m else m), ?_, ?_⟩
      · simp [hf]
      · rw [List.map_map]
        refine List.map_congr_left ?_
        intro m _
        by_cases hm : m.member_id = id <;> simp [Function.comp, hm, applyMemberUpdate]
    · exact ⟨db.members, by simp [hf], rfl⟩

theorem delete_member_shape (db : DB) (id : Nat) :
    ∃ M, (delete_member db id).1 = { db with members := M } ∧
      M.map Member.member_id = db.members.map Member.member_id ∧
      ∀ x ∈ M, ∃ m0 ∈ db.members, x.member_id = m0.member_id ∧
        x.max_books_allowed = m0.max_books_allowed := by
  unfold delete_member
  split
  · exact ⟨db.members, rfl, rfl, fun x hx => ⟨x, hx, rfl, rfl⟩⟩
  split
  · exact ⟨db.members, rfl, rfl, fun x hx => ⟨x, hx, rfl, rfl⟩⟩
  · refine ⟨_, rfl, ?_, ?_⟩
    · rw [List.map_map]
      refine List.map_congr_left ?_
      intro m _
      by_cases hm : m.member_id = id <;> simp [Function.comp, hm]
    · intro x hx
      rcases List.mem_map.1 hx with ⟨m, hm, rfl⟩
      by_cases h : m.member_id = id <;> exact ⟨m, hm, by simp [h], by simp [h]⟩

theorem ids_lt_of_map_eq {α : Type} (f : α → Nat) (l l' : List α) (n : Nat)
    (hmap : l'.map f = l.map f) (h : ∀ x ∈ l, f x < n) : ∀ x ∈ l', f x < n := by
  intro x hx
  have hfx : f x ∈ l.map f := hmap ▸ List.mem_map_of_mem f hx
  rcases List.mem_map.1 hfx with ⟨y, hy, he⟩
  exact he ▸ h y hy

theorem decrementAvailable_books_ids (db : DB) (bid : Nat) :
    (decrementAvailable db bid).books.map Book.book_id =
      db.books.map Book.book_id := by
  unfold decrementAvailable
  rw [List.map_map]
  exact List.map_congr_left (fun b _ => by
    by_cases h : b.book_id = bid <;> simp [Function.comp, h])

theorem incrementAvailable_books_ids (db : DB) (bid : Nat) :
    (incrementAvailable db bid).books.map Book.book_id =
      db.books.map Book.book_id := by
  unfold incrementAvailable
  rw [List.map_map]
  exact List.map_congr_left (fun b _ => by
    by_cases h : b.book_id = bid <;> simp [Function.comp, h])

theorem markLoanReturned_loans_ids (db : DB) (tid : Nat) :
    (markLoanReturned db tid).loans.map LoanTransaction.transaction_id =
      db.loans.map LoanTransaction.transaction_id := by
  unfold markLoanReturned
  rw [List.map_map]
  exact List.map_congr_left (fun l _ => by
    by_cases h : l.transaction_id = tid <;> simp [Function.comp, h])

theorem markLoanReturned_mem (db : DB) (tid : Nat) :
    ∀ x ∈ (markLoanReturned db tid).loans, ∃ l0 ∈ db.loans,
      x.transaction_id = l0.transaction_id ∧ x.book_id = l0.book_id ∧
      x.member_id = l0.member_id := by
  intro x hx
  rcases List.mem_map.1 hx with ⟨l0, hl0, rfl⟩
  by_cases h : l0.transaction_id = tid <;>
    exact ⟨l0, hl0, by simp [h], by simp [h], by simp [h]⟩

theorem applyOp_wf (db : DB) (op : Op) (hwf : dbWF db) : dbWF (applyOp db op) := by
  obtain ⟨h1, h2, h3, h4, h5, h6, h7, h8⟩ := hwf
  cases op with
  | createBook b =>
    rcases create_book_shape db b with h | ⟨h, _⟩ <;> rw [applyOp, h]
    · exact ⟨h1, h2, h3, h4, h5, h6, h7, h8⟩
    · refine ⟨?_, h2, h3, ?_, h5, ?_, h7, h8⟩
      · intro x hx
        rcases List.mem_append.1 hx with hx | hx
        · exact Nat.lt_succ_of_lt (h1 x hx)
        · simp only [List.mem_singleton] at hx
          subst hx
          simp [newBookRow]
      · exact fun l hl => Nat.lt_succ_of_lt (h4 l hl)
      · rw [List.map_append]
        rw [List.nodup_append]
        refine ⟨h6, List.nodup_singleton _, ?_⟩
        intro a ha hb
        simp only [List.map_cons, List.map_nil, List.mem_singleton] at hb
        rcases List.mem_map.1 ha with ⟨b0, hb0, he⟩
        have := h1 b0 hb0
        simp [newBookRow] at hb
        omega
  | updateBook id u =>
    rcases update_book_shape db id u with ⟨B, A, h, hmap⟩
    rw [applyOp, h]
    exact ⟨ids_lt_of_map_eq _ _ _ _ hmap h1, h2, h3, h4, h5, hmap ▸ h6, h7, h8⟩
  | deleteBook id =>
    rcases delete_book_shape db id with ⟨B, A, h, hsub⟩
    rw [applyOp, h]
    exact ⟨fun x hx => h1 x (hsub.mem hx), h2, h3, h4, h5,
      h6.sublist (hsub.map Book.book_id), h7, h8⟩
  | createMember m =>
    rcases create_member_shape db m with h | ⟨h, _⟩ <;> rw [applyOp, h]
    · exact ⟨h1, h2, h3, h4, h5, h6, h7, h8⟩
    · refine ⟨h1, ?_, h3, h4, ?_, h6, ?_, h8⟩
      · intro x hx
        rcases List.mem_append.1 hx with hx | hx
        · exact Nat.lt_succ_of_lt (h2 x hx)
        · simp only [List.mem_singleton] at hx
          subst hx
          simp [newMemberRow]
      · exact fun l hl => Nat.lt_succ_of_lt (h5 l hl)
      · rw [List.map_append, List.nodup_append]
        refine ⟨h7, List.nodup_singleton _, ?_⟩
        intro a ha hb
        simp only [List.map_cons, List.map_nil, List.mem_singleton] at hb
        rcases List.mem_map.1 ha with ⟨m0, hm0, he⟩
        have := h2 m0 hm0
        simp [newMemberRow] at hb
        omega
  | updateMember id u =>
    rcases update_member_shape db id u with ⟨M, h, hmap⟩
    rw [applyOp, h]
    exact ⟨h1, ids_lt_of_map_eq _ _ _ _ hmap h2, h3, h4, h5, h6, hmap ▸ h7, h8⟩
  | deleteMember id =>
    rcases delete_member_shape db id with ⟨M, h, hmap, _⟩
    rw [applyOp, h]
    exact ⟨h1, ids_lt_of_map_eq _ _ _ _ hmap h2, h3, h4, h5, h6, hmap ▸ h7, h8⟩
  | borrow loan =>
    rcases hp : post_loans db loan with ⟨db', r⟩
    cases r with
    | err e =>
      have := post_loans_err_db hp
      subst this
      simp only [applyOp, hp]
      exact ⟨h1, h2, h3, h4, h5, h6, h7, h8⟩
    | ok s resp =>
      obtain ⟨hv, hcl⟩ := post_loans_ok_parts hp
      obtain ⟨hdb', _, _, book, hbook, hav, member, hmem, hact, hcount⟩ :=
        create_loan_ok_parts hcl
      subst hdb'
      simp only [applyOp, hp]
      have hbid : loan.book_id < db.next_book_id := by
        have hmb := List.mem_of_find?_eq_some hbook
        have hpb : book.book_id = loan.book_id := by
          simpa using List.find?_some hbook
        exact hpb ▸ h1 book hmb
      have hmid : loan.member_id < db.next_member_id := by
        have hmm := List.mem_of_find?_eq_some hmem
        have hpm : member.member_id = loan.member_id := by
          simpa using List.find?_some hmem
        exact hpm ▸ h2 member hmm
      refine ⟨?_, h2, ?_, ?_, ?_, ?_, h7, ?_⟩
      · refine ids_lt_of_map_eq Book.book_id db.books _ db.next_book_id ?_ h1
        rw [decrementAvailable_books_ids]
        rfl
      · intro l hl
        simp only [decrementAvailable, insertLoanRow] at hl
        rcases List.mem_append.1 hl with hl | hl
        · exact Nat.lt_succ_of_lt (h3 l hl)
        · simp only [List.mem_singleton] at hl
          subst hl
          simp [newLoanRow, decrementAvailable, insertLoanRow]
      · intro l hl
        simp only [decrementAvailable, insertLoanRow] at hl
        rcases List.mem_append.1 hl with hl | hl
        · exact h4 l hl
        · simp only [List.mem_singleton] at hl
          subst hl
          simpa [newLoanRow] using hbid
      · intro l hl
        simp only [decrementAvailable, insertLoanRow] at hl
        rcases List.mem_append.1 hl with hl | hl
        · exact h5 l hl
        · simp only [List.mem_singleton] at hl
          subst hl
          simpa [newLoanRow] using hmid
      · rw [show (decrementAvailable (insertLoanRow db loan) loan.book_id).books.map
            Book.book_id = db.books.map Book.book_id from by
          rw [decrementAvailable_books_ids]; rfl]
        exact h6
      · simp only [decrementAvailable, insertLoanRow]
        rw [List.map_append, List.nodup_append]
        refine ⟨h8, List.nodup_singleton _, ?_⟩
        intro a ha hb
        simp only [List.map_cons, List.map_nil, List.mem_singleton] at hb
        rcases List.mem_map.1 ha with ⟨l0, hl0, he⟩
        have := h3 l0 hl0
        simp [newLoanRow] at hb
        omega
  | returnLoan tid =>
    rcases hp : return_book db tid with ⟨db', r⟩
    cases r with
    | err e =>
      have := (return_book_err_parts hp).1
      subst this
      simp only [applyOp, hp]
      exact ⟨h1, h2, h3, h4, h5, h6, h7, h8⟩
    | ok s resp =>
      obtain ⟨loan, hfind, hdb', _, _⟩ := return_book_ok_parts hp
      subst hdb'
      simp only [applyOp, hp]
      have hloansids : (incrementAvailable (markLoanReturned db tid)
          loan.book_id).loans.map LoanTransaction.transaction_id =
          db.loans.map LoanTransaction.transaction_id := by
        rw [show (incrementAvailable (markLoanReturned db tid) loan.book_id).loans =
          (markLoanReturned db tid).loans from rfl]
        exact markLoanReturned_loans_ids db tid
      have hbooksids : (incrementAvailable (markLoanReturned db tid)
          loan.book_id).books.map Book.book_id = db.books.map Book.book_id := by
        rw [incrementAvailable_books_ids]
        rfl
      refine ⟨?_, h2, ?_, ?_, ?_, ?_, h7, ?_⟩
      · exact ids_lt_of_map_eq _ _ _ _ hbooksids h1
      · exact ids_lt_of_map_eq _ _ _ _ hloansids h3
      · intro l hl
        rcases markLoanReturned_mem db tid l hl with ⟨l0, hl0, _, hb, _⟩
        exact hb ▸ h4 l0 hl0
      · intro l hl
        rcases markLoanReturned_mem db tid l hl with ⟨l0, hl0, _, _, hm⟩
        exact hm ▸ h5 l0 hl0
      · exact hbooksids ▸ h6
      · exact hloansids ▸ h8

theorem activeByBook_congr {db db' : DB} (h : db'.loans = db.loans) (bid : Nat) :
    activeLoanCountOfBook db' bid = activeLoanCountOfBook db bid := by
  unfold activeLoanCountOfBook
  rw [h]

theorem activeByMember_congr {db db' : DB} (h : db'.loans = db.loans) (mid : Nat) :
    activeLoanCountOfMember db' mid = activeLoanCountOfMember db mid := by
  unfold activeLoanCountOfMember
  rw [h]

theorem activeByBook_zero_of_fresh (db : DB) (bid : Nat)
    (h : ∀ l ∈ db.loans, l.book_id ≠ bid) : activeLoanCountOfBook db bid = 0 := by
  unfold activeLoanCountOfBook
  rw [List.length_eq_zero, List.filter_eq_nil_iff]
  intro l hl
  simp [h l hl]

theorem activeByBook_pos_of_mem {db : DB} {l : LoanTransaction} {bid : Nat}
    (hl : l ∈ db.loans) (hb : l.book_id = bid) (ha : l.loan_status = LoanStatus.Active) :
    0 < activeLoanCountOfBook db bid :=
  List.length_pos_of_mem (List.mem_filter.2 ⟨hl, by simp [hb, ha]⟩)

theorem activeByMember_zero_of_fresh (db : DB) (mid : Nat)
    (h : ∀ l ∈ db.loans, l.member_id ≠ mid) : activeLoanCountOfMember db mid = 0 := by
  unfold activeLoanCountOfMember
  rw [List.length_eq_zero, List.filter_eq_nil_iff]
  intro l hl
  simp [h l hl]

theorem BookCreate.valid_avail_bounds {b : BookCreate} (h : b.valid = true) :
    0 ≤ b.available_copies.getD b.total_copies ∧
      b.available_copies.getD b.total_copies ≤ b.total_copies := by
  cases hav : b.available_copies with
  | none =>
    simp only [BookCreate.valid, hav, Bool.and_eq_true, decide_eq_true_eq] at h
    simp only [Option.getD_none]
    omega
  | some v =>
    simp only [BookCreate.valid, hav, Bool.and_eq_true, decide_eq_true_eq] at h
    simp only [Option.getD_some]
    omega

theorem booksCountInv_ext (db db' : DB) (hlo : db'.loans = db.loans)
    (hinv : booksCountInv db)
    (hb : ∀ x ∈ db'.books, x ∈ db.books ∨
      (0 ≤ x.available_copies ∧
        x.available_copies + (activeLoanCountOfBook db x.book_id : Int) ≤ x.total_copies)) :
    booksCountInv db' := by
  intro x hx
  rw [activeByBook_congr hlo]
  rcases hb x hx with h | h
  · exact hinv x h
  · exact h

theorem memberLimitInv_ext (db db' : DB) (hlo : db'.loans = db.loans)
    (hinv : memberLimitInv db)
    (hm : ∀ x ∈ db'.members, x ∈ db.members ∨
      activeLoanCountOfMember db x.member_id ≤ x.max_books_allowed) :
    memberLimitInv db' := by
  intro x hx
  rw [activeByMember_congr hlo]
  rcases hm x hx with h | h
  · exact hinv x h
  · exact h

theorem applyOp_booksCountInv (db : DB) (op : Op) (hop : op.isBookUpdate = false)
    (hwf : dbWF db) (hinv : booksCountInv db) : booksCountInv (applyOp db op) := by
  obtain ⟨h1, h2, h3, h4, h5, h6, h7, h8⟩ := hwf
  cases op with
  | createBook b =>
    rcases create_book_shape db b with h | ⟨h, hv⟩ <;> rw [applyOp, h]
    · exact hinv
    · refine booksCountInv_ext db _ rfl hinv ?_
      intro x hx
      rcases List.mem_append.1 hx with hx | hx
      · exact Or.inl hx
      · simp only [List.mem_singleton] at hx
        subst hx
        refine Or.inr ?_
        have hz : activeLoanCountOfBook db (newBookRow db b).book_id = 0 :=
          activeByBook_zero_of_fresh db _ (fun l hl => by
            have := h4 l hl
            simp only [newBookRow]
            omega)
        have hbnd := BookCreate.valid_avail_bounds hv
        rw [hz]
        simp only [newBookRow]
        constructor
        · exact hbnd.1
        · simpa using hbnd.2
  | updateBook id u => simp [Op.isBookUpdate] at hop
  | deleteBook id =>
    rcases delete_book_shape db id with ⟨B, A, h, hsub⟩
    rw [applyOp, h]
    exact booksCountInv_ext db _ rfl hinv (fun x hx => Or.inl (hsub.mem hx))
  | createMember m =>
    rcases create_member_shape db m with h | ⟨h, _⟩ <;> rw [applyOp, h]
    · exact hinv
    · exact booksCountInv_ext db _ rfl hinv (fun x hx => Or.inl hx)
  | updateMember id u =>
    rcases update_member_shape db id u with ⟨M, h, _⟩
    rw [applyOp, h]
    exact booksCountInv_ext db _ rfl hinv (fun x hx => Or.inl hx)
  | deleteMember id =>
    rcases delete_member_shape db id with ⟨M, h, _, _⟩
    rw [applyOp, h]
    exact booksCountInv_ext db _ rfl hinv (fun x hx => Or.inl hx)
  | borrow loan =>
    rcases hp : post_loans db loan with ⟨db', r⟩
    cases r with
    | err e =>
      have hd := post_loans_err_db hp
      subst hd
      simp only [applyOp, hp]
      exact hinv
    | ok s resp =>
      obtain ⟨hv, hcl⟩ := post_loans_ok_parts hp
      obtain ⟨hdb', _, _, book, hbook, hav, member, hmem, hact, hcount⟩ :=
        create_loan_ok_parts hcl
      subst hdb'
      simp only [applyOp, hp]
      intro x hx
      have hx' : x ∈ db.books.map (fun b =>
          if b.book_id = loan.book_id then
            { b with available_copies := b.available_copies - 1 }
          else b) := hx
      rcases List.mem_map.1 hx' with ⟨b0, hb0, rfl⟩
      obtain ⟨hge, hle⟩ := hinv b0 hb0
      have hc1 : activeLoanCountOfBook
          (decrementAvailable (insertLoanRow db loan) loan.book_id) b0.book_id =
          activeLoanCountOfBook (insertLoanRow db loan) b0.book_id :=
        activeByBook_congr rfl b0.book_id
      have hc2 := activeByBook_insertLoanRow db loan b0.book_id
      by_cases hbid : b0.book_id = loan.book_id
      · have hbeq : b0 = book := by
          apply findBook_unique h6 hb0
          rw [hbid]
          exact hbook
        have hpos : 0 < b0.available_copies := hbeq.symm ▸ hav
        simp only [if_pos hbid]
        rw [hc1, hc2, if_pos hbid.symm]
        constructor
        · omega
        · push_cast
          omega
      · simp only [if_neg hbid]
        rw [hc1, hc2, if_neg (fun he => hbid he.symm)]
        constructor
        · exact hge
        · simpa using hle
  | returnLoan tid =>
    rcases hp : return_book db tid with ⟨db', r⟩
    cases r with
    | err e =>
      have hd := (return_book_err_parts hp).1
      subst hd
      simp only [applyOp, hp]
      exact hinv
    | ok s resp =>
      obtain ⟨loan, hfind, hdb', _, _⟩ := return_book_ok_parts hp
      subst hdb'
      simp only [applyOp, hp]
      have hl0 := List.mem_of_find?_eq_some hfind
      have hprop : loan.transaction_id = tid ∧ loan.loan_status = LoanStatus.Active := by
        simpa using List.find?_some hfind
      intro x hx
      have hx' : x ∈ db.books.map (fun b =>
          if b.book_id = loan.book_id then
            { b with available_copies := b.available_copies + 1 }
          else b) := hx
      rcases List.mem_map.1 hx' with ⟨b0, hb0, rfl⟩
      obtain ⟨hge, hle⟩ := hinv b0 hb0
      have hc1 : activeLoanCountOfBook
          (incrementAvailable (markLoanReturned db tid) loan.book_id) b0.book_id =
          activeLoanCountOfBook (markLoanReturned db tid) b0.book_id :=
        activeByBook_congr rfl b0.book_id
      have hc2 := activeByBook_markLoanReturned db tid loan h8 hl0 hprop.1 hprop.2 b0.book_id
      by_cases hbid : b0.book_id = loan.book_id
      · have hposc : 0 < activeLoanCountOfBook db b0.book_id :=
          activeByBook_pos_of_mem hl0 hbid.symm hprop.2
        simp only [if_pos hbid]
        rw [hc1, hc2, if_pos hbid.symm]
        constructor
        · omega
        · omega
      · simp only [if_neg hbid]
        rw [hc1, hc2, if_neg (fun he => hbid he.symm)]
        constructor
        · exact hge
        · simpa using hle

theorem applyOp_memberLimitInv (db : DB) (op : Op) (hop : op.isMemberUpdate = false)
    (hwf : dbWF db) (hinv : memberLimitInv db) : memberLimitInv (applyOp db op) := by
  obtain ⟨h1, h2, h3, h4, h5, h6, h7, h8⟩ := hwf
  cases op with
  | createBook b =>
    rcases create_book_shape db b with h | ⟨h, _⟩ <;> rw [applyOp, h]
    · exact hinv
    · exact memberLimitInv_ext db _ rfl hinv (fun x hx => Or.inl hx)
  | updateBook id u =>
    rcases update_book_shape db id u with ⟨B, A, h, _⟩
    rw [applyOp, h]
    exact memberLimitInv_ext db _ rfl hinv (fun x hx => Or.inl hx)
  | deleteBook id =>
    rcases delete_book_shape db id with ⟨B, A, h, _⟩
    rw [applyOp, h]
    exact memberLimitInv_ext db _ rfl hinv (fun x hx => Or.inl hx)
  | createMember m =>
    rcases create_member_shape db m with h | ⟨h, hv⟩ <;> rw [applyOp, h]
    · exact hinv
    · refine memberLimitInv_ext db _ rfl hinv ?_
      intro x hx
      rcases List.mem_append.1 hx with hx | hx
      · exact Or.inl hx
      · simp only [List.mem_singleton] at hx
        subst hx
        refine Or.inr ?_
        have hz : activeLoanCountOfMember db (newMemberRow db m).member_id = 0 :=
          activeByMember_zero_of_fresh db _ (fun l hl => by
            have := h5 l hl
            simp only [newMemberRow]
            omega)
        rw [hz]
        exact Nat.zero_le _
  | updateMember id u => simp [Op.isMemberUpdate] at hop
  | deleteMember id =>
    rcases delete_member_shape db id with ⟨M, h, _, hmm⟩
    rw [applyOp, h]
    refine memberLimitInv_ext db _ rfl hinv ?_
    intro x hx
    rcases hmm x hx with ⟨m0, hm0, hid, hmax⟩
    refine Or.inr ?_
    rw [hid, hmax]
    exact hinv m0 hm0
  | borrow loan =>
    rcases hp : post_loans db loan with ⟨db', r⟩
    cases r with
    | err e =>
      have hd := post_loans_err_db hp
      subst hd
      simp only [applyOp, hp]
      exact hinv
    | ok s resp =>
      obtain ⟨hv, hcl⟩ := post_loans_ok_parts hp
      obtain ⟨hdb', _, _, book, hbook, hav, member, hmem, hact, hcount⟩ :=
        create_loan_ok_parts hcl
      subst hdb'
      simp only [applyOp, hp]
      intro x hx
      have hx' : x ∈ db.members := hx
      have hc1 : activeLoanCountOfMember
          (decrementAvailable (insertLoanRow db loan) loan.book_id) x.member_id =
          activeLoanCountOfMember (insertLoanRow db loan) x.member_id :=
        activeByMember_congr rfl x.member_id
      have hc2 := activeByMember_insertLoanRow db loan x.member_id
      rw [hc1, hc2]
      by_cases hmid : loan.member_id = x.member_id
      · have hxeq : x = member := by
          apply findMember_unique h7 hx'
          rw [← hmid]
          exact hmem
        rw [if_pos hmid]
        have hmm2 : member.member_id = loan.member_id := by
          simpa using List.find?_some hmem
        have : activeLoanCountOfMember db x.member_id < x.max_books_allowed := by
          rw [hxeq, hmm2]
          exact hcount
        omega
      · rw [if_neg hmid]
        simpa using hinv x hx'
  | returnLoan tid =>
    rcases hp : return_book db tid with ⟨db', r⟩
    cases r with
    | err e =>
      have hd := (return_book_err_parts hp).1
      subst hd
      simp only [applyOp, hp]
      exact hinv
    | ok s resp =>
      obtain ⟨loan, hfind, hdb', _, _⟩ := return_book_ok_parts hp
      subst hdb'
      simp only [applyOp, hp]
      have hl0 := List.mem_of_find?_eq_some hfind
      have hprop : loan.transaction_id = tid ∧ loan.loan_status = LoanStatus.Active := by
        simpa using List.find?_some hfind
      intro x hx
      have hx' : x ∈ db.members := hx
      have hc1 : activeLoanCountOfMember
          (incrementAvailable (markLoanReturned db tid) loan.book_id) x.member_id =
          activeLoanCountOfMember (markLoanReturned db tid) x.member_id :=
        activeByMember_congr rfl x.member_id
      have hc2 := activeByMember_markLoanReturned db tid loan h8 hl0 hprop.1 hprop.2
        x.member_id
      rw [hc1, hc2]
      have := hinv x hx'
      omega

theorem update_book_books (db : DB) (id : Nat) (u : BookUpdate) :
    (update_book db id u).1.books = db.books ∨
    ((update_book db id u).1.books = db.books.map (fun b =>
        if b.book_id = id then applyBookUpdate u db.now b else b) ∧
      u.valid = true) := by
  unfold update_book
  split
  · exact Or.inl rfl
  next hv =>
    split
    · exact Or.inl rfl
    split
    · exact Or.inl rfl
    · have huv : u.valid = true := by revert hv; cases u.valid <;> simp
      by_cases hf : u.hasFieldUpdates = true
      · cases hauth : u.authors with
        | none => exact Or.inr ⟨by simp [hf, hauth], huv⟩
        | some links => exact Or.inr ⟨by simp [hf, hauth], huv⟩
      · cases hauth : u.authors with
        | none => exact Or.inl (by simp [hf, hauth])
        | some links => exact Or.inl (by simp [hf, hauth])

theorem BookUpdate.valid_avail_nonneg {u : BookUpdate} (h : u.valid = true) {v : Int}
    (hv : u.available_copies = some v) : 0 ≤ v := by
  simp only [BookUpdate.valid, hv, Bool.and_eq_true, decide_eq_true_eq] at h
  omega

theorem applyOp_booksLowerInv (db : DB) (op : Op) (hwf : dbWF db)
    (hinv : booksLowerInv db) : booksLowerInv (applyOp db op) := by
  obtain ⟨h1, h2, h3, h4, h5, h6, h7, h8⟩ := hwf
  cases op with
  | createBook b =>
    rcases create_book_shape db b with h | ⟨h, hv⟩ <;> rw [applyOp, h]
    · exact hinv
    · intro x hx
      rcases List.mem_append.1 hx with hx | hx
      · exact hinv x hx
      · simp only [List.mem_singleton] at hx
        subst hx
        exact (BookCreate.valid_avail_bounds hv).1
  | updateBook id u =>
    rcases update_book_books db id u with h | ⟨h, huv⟩
    · intro x hx
      rw [applyOp] at hx
      rw [h] at hx
      exact hinv x hx
    · intro x hx
      rw [applyOp] at hx
      rw [h] at hx
      rcases List.mem_map.1 hx with ⟨b0, hb0, rfl⟩
      by_cases hid : b0.book_id = id
      · rw [if_pos hid]
        cases hav : u.available_copies with
        | none =>
          simp only [applyBookUpdate, hav, Option.getD_none]
          exact hinv b0 hb0
        | some v =>
          simp only [applyBookUpdate, hav, Option.getD_some]
          exact BookUpdate.valid_avail_nonneg huv hav
      · rw [if_neg hid]
        exact hinv b0 hb0
  | deleteBook id =>
    rcases delete_book_shape db id with ⟨B, A, h, hsub⟩
    rw [applyOp, h]
    exact fun x hx => hinv x (hsub.mem hx)
  | createMember m =>
    rcases create_member_shape db m with h | ⟨h, _⟩ <;> rw [applyOp, h]
    · exact hinv
    · exact fun x hx => hinv x hx
  | updateMember id u =>
    rcases update_member_shape db id u with ⟨M, h, _⟩
    rw [applyOp, h]
    exact fun x hx => hinv x hx
  | deleteMember id =>
    rcases delete_member_shape db id with ⟨M, h, _, _⟩
    rw [applyOp, h]
    exact fun x hx => hinv x hx
  | borrow loan =>
    rcases hp : post_loans db loan with ⟨db', r⟩
    cases r with
    | err e =>
      have hd := post_loans_err_db hp
      subst hd
      simp only [applyOp, hp]
      exact hinv
    | ok s resp =>
      obtain ⟨hv, hcl⟩ := post_loans_ok_parts hp
      obtain ⟨hdb', _, _, book, hbook, hav, member, hmem, hact, hcount⟩ :=
        create_loan_ok_parts hcl
      subst hdb'
      simp only [applyOp, hp]
      intro x hx
      have hx' : x ∈ db.books.map (fun b =>
          if b.book_id = loan.book_id then
            { b with available_copies := b.available_copies - 1 }
          else b) := hx
      rcases List.mem_map.1 hx' with ⟨b0, hb0, rfl⟩
      by_cases hbid : b0.book_id = loan.book_id
      · have hbeq : b0 = book := by
          apply findBook_unique h6 hb0
          rw [hbid]
          exact hbook
        have hpos : 0 < b0.available_copies := hbeq.symm ▸ hav
        simp only [if_pos hbid]
        omega
      · simp only [if_neg hbid]
        exact hinv b0 hb0
  | returnLoan tid =>
    rcases hp : return_book db tid with ⟨db', r⟩
    cases r with
    | err e =>
      have hd := (return_book_err_parts hp).1
      subst hd
      simp only [applyOp, hp]
      exact hinv
    | ok s resp =>
      obtain ⟨loan, hfind, hdb', _, _⟩ := return_book_ok_parts hp
      subst hdb'
      simp only [applyOp, hp]
      intro x hx
      have hx' : x ∈ db.books.map (fun b =>
          if b.book_id = loan.book_id then
            { b with available_copies := b.available_copies + 1 }
          else b) := hx
      rcases List.mem_map.1 hx' with ⟨b0, hb0, rfl⟩
      have := hinv b0 hb0
      by_cases hbid : b0.book_id = loan.book_id
      · simp only [if_pos hbid]
        omega
      · simp only [if_neg hbid]
        exact this

theorem applyOps_wf (db : DB) (ops : List Op) (hwf : dbWF db) :
    dbWF (applyOps db ops) := by
  induction ops generalizing db with
  | nil => exact hwf
  | cons op ops ih => exact ih _ (applyOp_wf db op hwf)

theorem applyOps_booksCountInv (db : DB) (ops : List Op)
    (hops : ∀ op ∈ ops, op.isBookUpdate = false)
    (hwf : dbWF db) (hinv : booksCountInv db) :
    booksCountInv (applyOps db ops) := by
  induction ops generalizing db with
  | nil => exact hinv
  | cons op ops ih =>
    exact ih _ (fun o ho => hops o (List.mem_cons_of_mem _ ho))
      (applyOp_wf db op hwf)
      (applyOp_booksCountInv db op (hops op (List.mem_cons_self _ _)) hwf hinv)

theorem applyOps_memberLimitInv (db : DB) (ops : List Op)
    (hops : ∀ op ∈ ops, op.isMemberUpdate = false)
    (hwf : dbWF db) (hinv : memberLimitInv db) :
    memberLimitInv (applyOps db ops) := by
  induction ops generalizing db with
  | nil => exact hinv
  | cons op ops ih =>
    exact ih _ (fun o ho => hops o (List.mem_cons_of_mem _ ho))
      (applyOp_wf db op hwf)
      (applyOp_memberLimitInv db op (hops op (List.mem_cons_self _ _)) hwf hinv)

theorem applyOps_booksLowerInv (db : DB) (ops : List Op)
    (hwf : dbWF db) (hinv : booksLowerInv db) :
    booksLowerInv (applyOps db ops) := by
  induction ops generalizing db with
  | nil => exact hinv
  | cons op ops ih =>
    exact ih _ (applyOp_wf db op hwf) (applyOp_booksLowerInv db op hwf hinv)

/-- A fixed sample book row: 5 copies, all available. -/
def c1book : Book :=
  { book_id := 1, isbn := "1234567890", title := "t", subtitle := none,
    publication_date := none, edition := 1, pages := none, language := "English",
    book_condition := "New", location_shelf := none, total_copies := 5,
    available_copies := 5, price := none, publisher_id := none, category_id := 1,
    created_at := 0, updated_at := 0 }

/-- A database holding only `c1book`. -/
def c1db : DB :=
  { books := [c1book], members := [], loans := [], book_authors := [],
    categories := [], authors := [], next_book_id := 2, next_member_id := 1,
    next_transaction_id := 1, now := 0 }

/-- `PUT /api/books/1` body `{"available_copies": 10}` — passes `BookUpdate`
validation, which checks `ge=0` only. -/
def c1update : BookUpdate := { available_copies := some 10 }

/-- C1, counterexample: from a well-formed state satisfying
`0 ≤ available_copies ≤ total_copies` (book 1 has 5 of 5 copies), the
single operation `PUT /api/books/1` with body `{"available_copies": 10}`
is accepted and leaves a stored book with `available_copies = 10 >
5 = total_copies`: the claimed invariant fails after a book update. -/
theorem C1_counterexample :
    dbWF c1db ∧ booksCountInv c1db ∧
    ∃ b ∈ (applyOps c1db [Op.updateBook 1 c1update]).books,
      b.total_copies < b.available_copies := by decide

/-- C1 (amended): `0 ≤ available_copies` does hold after every operation
sequence; and for sequences containing no book-update call, the full
`0 ≤ available_copies ≤ total_copies` is preserved from any well-formed
state whose books satisfy the availability ledger invariant.  The
`update_book` handler validates `available_copies ≥ 0` but never compares
it with `total_copies` (`BookUpdate` has no cross-field validator), which
is exactly the hole `C1_counterexample` exhibits. -/
theorem C1_amended_available_bounds (db : DB) (ops : List Op) :
    (dbWF db → booksLowerInv db → booksLowerInv (applyOps db ops)) ∧
    ((∀ op ∈ ops, op.isBookUpdate = false) → dbWF db → booksCountInv db →
      ∀ b ∈ (applyOps db ops).books,
        0 ≤ b.available_copies ∧ b.available_copies ≤ b.total_copies) := by
  constructor
  · exact fun hwf hinv => applyOps_booksLowerInv db ops hwf hinv
  · intro hops hwf hinv b hb
    have h := applyOps_booksCountInv db ops hops hwf hinv b hb
    have hc : (0 : Int) ≤ (activeLoanCountOfBook (applyOps db ops) b.book_id : Int) :=
      Int.natCast_nonneg _
    exact ⟨h.1, by omega⟩

/-- C1 witness: the amended theorem applied to the concrete one-book
database and an update-free operation sequence, with every hypothesis
evaluated on that concrete state. -/
theorem C1_amended_witness :
    booksLowerInv (applyOps c1db [Op.returnLoan 1]) ∧
    ∀ b ∈ (applyOps c1db [Op.returnLoan 1]).books,
      0 ≤ b.available_copies ∧ b.available_copies ≤ b.total_copies :=
  ⟨(C1_amended_available_bounds c1db [Op.returnLoan 1]).1 (by decide) (by decide),
   (C1_amended_available_bounds c1db [Op.returnLoan 1]).2 (by decide) (by decide)
     (by decide)⟩

/-- A sample member allowed five concurrent loans. -/
def c6member : Member :=
  { member_id := 1, membership_number := "M001", first_name := "Ann",
    last_name := "Lee", date_of_birth := none, gender := none, email := none,
    phone_number := none, address := none, city := none, postal_code := none,
    membership_type := "Regular", membership_start_date := 0,
    membership_expiry_date := 100, is_active := true, max_books_allowed := 5,
    created_at := 0, updated_at := 0 }

/-- A sample book with five copies. -/
def c6book : Book :=
  { book_id := 1, isbn := "9990001112", title := "t", subtitle := none,
    publication_date := none, edition := 1, pages := none, language := "English",
    book_condition := "New", location_shelf := none, total_copies := 5,
    available_copies := 5, price := none, publisher_id := none, category_id := 1,
    created_at := 0, updated_at := 0 }

/-- One book, one member, no loans. -/
def c6db : DB :=
  { books := [c6book], members := [c6member], loans := [], book_authors := [],
    categories := [], authors := [], next_book_id := 2, next_member_id := 2,
    next_transaction_id := 1, now := 0 }

/-- `POST /api/loans` body for member 1 / book 1. -/
def c6loan : LoanCreate :=
  { member_id := 1, book_id := 1, staff_id := none, loan_date := 0,
    due_date := 14, notes := none }

/-- `PUT /api/members/1` body `{"max_books_allowed": 1}`. -/
def c6update : MemberUpdate := { max_books_allowed := some 1 }

/-- The state after two successful borrows followed by lowering the
member's limit to one. -/
def c6final : DB :=
  applyOps c6db [Op.borrow c6loan, Op.borrow c6loan, Op.updateMember 1 c6update]

/-- C6, counterexample: member 1 (limit 5) borrows twice, then
`PUT /api/members/1` lowers `max_books_allowed` to 1 — accepted without
any check against the member's current Active loans — leaving a member
whose `max_books_allowed = m = 1` while they hold 2 > m simultaneously
Active loans.  The claim, quantified over every sequence of operations,
is false. -/
theorem C6_counterexample :
    dbWF c6db ∧ memberLimitInv c6db ∧
    ∃ m ∈ c6final.members,
      m.max_books_allowed < activeLoanCountOfMember c6final m.member_id := by
  decide

/-- C6 (amended): as long as no member-update call occurs, a member can
never exceed `max_books_allowed` simultaneously Active loans, from any
well-formed state satisfying the limit invariant; and while a member is at
or above their limit, no BorrowBook call for that member can succeed, the
failure being exactly the 400 "maximum book loan limit" rejection whenever
the request validates and the earlier book/member checks pass.  However
`update_member` may lower `max_books_allowed` below the member's current
Active-loan count (see `C6_counterexample`). -/
theorem C6_amended_loan_limit (db : DB) (ops : List Op) (loan : LoanCreate) :
    ((∀ op ∈ ops, op.isMemberUpdate = false) → dbWF db → memberLimitInv db →
      memberLimitInv (applyOps db ops)) ∧
    (∀ member, findMember db loan.member_id = some member →
      member.max_books_allowed ≤ activeLoanCountOfMember db loan.member_id →
      (∀ db' s r, post_loans db loan ≠ (db', Reply.ok s r)) ∧
      (∀ book, loan.valid = true → findBook db loan.book_id = some book →
        0 < book.available_copies → member.is_active = true →
        post_loans db loan =
          (db, Reply.err ⟨400, "Member has reached maximum book loan limit"⟩))) := by
  constructor
  · exact fun hops hwf hinv => applyOps_memberLimitInv db ops hops hwf hinv
  · intro member hmem hcount
    constructor
    · intro db' s r hpost
      obtain ⟨hv, hcl⟩ := post_loans_ok_parts hpost
      obtain ⟨_, _, _, book, hbook, hav, member2, hmem2, hact2, hcount2⟩ :=
        create_loan_ok_parts hcl
      rw [hmem] at hmem2
      cases hmem2
      omega
    · intro book hv hbook hav hact
      have havn : ¬ book.available_copies ≤ 0 := by omega
      simp [post_loans, create_loan, hv, hbook, hmem, hact, havn, hcount]

/-- The member row as stored after the `c6final` sequence. -/
def c6finalMember : Member := (findMember c6final 1).getD c6member

/-- C6 witness: the amended theorem applied to the concrete scenario — the
limit invariant holds after a member-update-free sequence, and with member
1 at their (lowered) limit in `c6final`, a further borrow for them cannot
succeed and is the 400 limit rejection. -/
theorem C6_amended_witness :
    memberLimitInv (applyOps c6db [Op.borrow c6loan]) ∧
    ((∀ db' s r, post_loans c6final c6loan ≠ (db', Reply.ok s r)) ∧
     (∀ book, c6loan.valid = true → findBook c6final c6loan.book_id = some book →
        0 < book.available_copies → c6finalMember.is_active = true →
        post_loans c6final c6loan =
          (c6final, Reply.err ⟨400, "Member has reached maximum book loan limit"⟩))) :=
  ⟨(C6_amended_loan_limit c6db [Op.borrow c6loan] c6loan).1 (by decide) (by decide)
      (by decide),
   (C6_amended_loan_limit c6final [] c6loan).2 c6finalMember (by rfl) (by decide)⟩

/-- C4: `POST /api/loans` checks its preconditions in the spec's order with
the first failure winning: (1) a due date not after the loan date is
rejected 422 by validation before the handler runs, whatever else holds;
(2) with a valid body, a missing book or one without available copies is
rejected 400 "Book is not available for loan" before any member lookup;
(3) then a missing member 404; (4) then an inactive member 400; (5) then a
member at `max_books_allowed` 400; and every error leaves the database
exactly as it was. -/
theorem C4_precondition_order (db : DB) (loan : LoanCreate) :
    (loan.due_date ≤ loan.loan_date →
      post_loans db loan = (db, Reply.err ⟨422, "Request validation failed"⟩)) ∧
    (loan.valid = true →
      (findBook db loan.book_id = none ∨
        ∃ b, findBook db loan.book_id = some b ∧ b.available_copies ≤ 0) →
      post_loans db loan = (db, Reply.err ⟨400, "Book is not available for loan"⟩)) ∧
    (loan.valid = true → ∀ b, findBook db loan.book_id = some b →
      0 < b.available_copies → findMember db loan.member_id = none →
      post_loans db loan = (db, Reply.err ⟨404, "Member not found"⟩)) ∧
    (loan.valid = true → ∀ b, findBook db loan.book_id = some b →
      0 < b.available_copies → ∀ m, findMember db loan.member_id = some m →
      m.is_active = false →
      post_loans db loan = (db, Reply.err ⟨400, "Member account is not active"⟩)) ∧
    (loan.valid = true → ∀ b, findBook db loan.book_id = some b →
      0 < b.available_copies → ∀ m, findMember db loan.member_id = some m →
      m.is_active = true →
      m.max_books_allowed ≤ activeLoanCountOfMember db loan.member_id →
      post_loans db loan =
        (db, Reply.err ⟨400, "Member has reached maximum book loan limit"⟩)) ∧
    (∀ db' e, post_loans db loan = (db', Reply.err e) → db' = db) := by
  refine ⟨?_, ?_, ?_, ?_, ?_, ?_⟩
  · intro hdue
    have hvd : loan.validate_due_date = false := by
      simp only [LoanCreate.validate_due_date, decide_eq_false_iff_not, not_lt]
      exact hdue
    have hv : loan.valid = false := by
      simp [LoanCreate.valid, hvd]
    simp [post_loans, hv]
  · intro hv hbook
    rcases hbook with hnone | ⟨b, hsome, hle⟩
    · simp [post_loans, create_loan, hv, hnone]
    · simp [post_loans, create_loan, hv, hsome, hle]
  · intro hv b hsome hav hmem
    have havn : ¬ b.available_copies ≤ 0 := by omega
    simp [post_loans, create_loan, hv, hsome, havn, hmem]
  · intro hv b hsome hav m hmem hact
    have havn : ¬ b.available_copies ≤ 0 := by omega
    simp [post_loans, create_loan, hv, hsome, havn, hmem, hact]
  · intro hv b hsome hav m hmem hact hcount
    have havn : ¬ b.available_copies ≤ 0 := by omega
    simp [post_loans, create_loan, hv, hsome, havn, hmem, hact, hcount]
  · exact fun db' e h => post_loans_err_db h

/-- C5: `PUT /api/loans/{tid}/return` on a transaction with no Active row
fails 404 "Active loan not found" and leaves the database untouched; and
after any successful return of a transaction, a second return of the same
transaction id fails that way on the unchanged state — the book's
availability cannot be incremented twice for one loan. -/
theorem C5_return_non_active (db : DB) (tid : Nat) :
    ((∀ l ∈ db.loans, l.transaction_id = tid → l.loan_status ≠ LoanStatus.Active) →
      return_book db tid = (db, Reply.err ⟨404, "Active loan not found"⟩)) ∧
    (∀ db' s r, return_book db tid = (db', Reply.ok s r) →
      return_book db' tid = (db', Reply.err ⟨404, "Active loan not found"⟩)) := by
  have hgen : ∀ dbx : DB,
      (∀ l ∈ dbx.loans, l.transaction_id = tid → l.loan_status ≠ LoanStatus.Active) →
      return_book dbx tid = (dbx, Reply.err ⟨404, "Active loan not found"⟩) := by
    intro dbx h
    have hfind : dbx.loans.find? (fun l => decide (l.transaction_id = tid ∧
        l.loan_status = LoanStatus.Active)) = none := by
      rw [List.find?_eq_none]
      intro l hl
      simp only [decide_eq_true_eq, not_and]
      exact h l hl
    unfold return_book
    rw [hfind]
  constructor
  · exact hgen db
  · intro db' s r hok
    obtain ⟨loan, hfind, hdb', _, _⟩ := return_book_ok_parts hok
    subst hdb'
    apply hgen
    intro l hl
    have hl' : l ∈ (markLoanReturned db tid).loans := hl
    rcases List.mem_map.1 hl' with ⟨l0, hl0, rfl⟩
    by_cases h : l0.transaction_id = tid
    · intro _
      simp [h]
    · simp only [if_neg h]
      intro he
      exact absurd he h

/-- A loan request whose due date precedes its loan date. -/
def c4loanBadDate : LoanCreate :=
  { member_id := 1, book_id := 1, staff_id := none, loan_date := 14,
    due_date := 3, notes := none }

/-- A loan request naming a book id that does not exist in `c6db`. -/
def c4loanNoBook : LoanCreate :=
  { member_id := 1, book_id := 7, staff_id := none, loan_date := 0,
    due_date := 14, notes := none }

/-- A loan request naming a member id that does not exist in `c6db`. -/
def c4loanNoMember : LoanCreate :=
  { member_id := 9, book_id := 1, staff_id := none, loan_date := 0,
    due_date := 14, notes := none }

/-- C4 witness: the precondition-order theorem applied to the one-book
one-member state on three concrete failing requests, one per branch. -/
theorem C4_witness :
    post_loans c6db c4loanBadDate =
      (c6db, Reply.err ⟨422, "Request validation failed"⟩) ∧
    post_loans c6db c4loanNoBook =
      (c6db, Reply.err ⟨400, "Book is not available for loan"⟩) ∧
    post_loans c6db c4loanNoMember =
      (c6db, Reply.err ⟨404, "Member not found"⟩) :=
  ⟨(C4_precondition_order c6db c4loanBadDate).1 (by decide),
   (C4_precondition_order c6db c4loanNoBook).2.1 (by decide) (Or.inl (by decide)),
   (C4_precondition_order c6db c4loanNoMember).2.2.1 (by decide) c6book (by decide)
     (by decide) (by decide)⟩

/-- An Active loan row for transaction 1 (member 1, book 1). -/
def c5activeLoan : LoanTransaction :=
  { transaction_id := 1, member_id := 1, book_id := 1, staff_id := none,
    loan_date := 0, due_date := 14, return_date := none,
    loan_status := LoanStatus.Active, notes := none, updated_at := 0 }

/-- A database with one book and one Active loan (transaction 1). -/
def c5db : DB :=
  { books := [c6book], members := [c6member], loans := [c5activeLoan],
    book_authors := [], categories := [], authors := [], next_book_id := 2,
    next_member_id := 2, next_transaction_id := 2, now := 5 }

/-- `c5db` with the same transaction already Returned. -/
def c5dbReturned : DB :=
  { c5db with loans := [{ c5activeLoan with
      loan_status := LoanStatus.Returned, return_date := some 5,
      updated_at := 5 }] }

/-- The state after the first successful return of transaction 1. -/
def c5after : DB := (return_book c5db 1).1

/-- C5 witness: a return of an already-Returned transaction fails 404 and
changes nothing, and a second return right after a successful one does the
same — both by applying `C5_return_non_active` at the concrete states. -/
theorem C5_witness :
    return_book c5dbReturned 1 =
      (c5dbReturned, Reply.err ⟨404, "Active loan not found"⟩) ∧
    return_book c5after 1 =
      (c5after, Reply.err ⟨404, "Active loan not found"⟩) :=
  ⟨(C5_return_non_active c5dbReturned 1).1 (by decide),
   (C5_return_non_active c5db 1).2 c5after 200
     { message := "Book returned successfully" } (by rfl)⟩

/-- The state left behind when the availability UPDATE of a borrow of book
1 by member 1 in `c6db` fails after the loan INSERT committed. -/
def c2partial : DB := (create_loan_updateErr c6db c6loan).1

/-- C2: the two effects of a successful borrow are NOT applied atomically.
`create_loan` runs the loan INSERT (api.py line 682) and the availability
UPDATE (line 685) as two separate `execute_query` calls, each of which
commits on its own (line 283) and rolls back only its own statement
(line 287) — unlike `create_book`, which routes its insert through
`execute_transaction`.  Concretely: in `c6db` every precondition passes,
and when the UPDATE raises a database error the handler aborts with
HTTP 500 while the freshly inserted Active loan row stays committed and
the book's `available_copies` is NOT decremented — a persisted partial
effect, contradicting all-or-nothing. -/
theorem C2_borrow_not_atomic :
    (create_loan_updateErr c6db c6loan).2 =
      Reply.err ⟨500, "Database error: availability update failed"⟩ ∧
    (∃ l ∈ c2partial.loans, l.transaction_id = 1 ∧
      l.loan_status = LoanStatus.Active ∧ l.book_id = 1 ∧ l.member_id = 1) ∧
    findBook c2partial 1 = findBook c6db 1 ∧
    (create_loan c6db c6loan).2 =
      Reply.ok 201 { message := "Book loan created successfully" } := by
  decide

/-- The reply of a fully successful borrow in `c6db`. -/
def c3reply : Reply StandardResponse := (post_loans c6db c6loan).2

/-- C3, counterexample: a successful `POST /api/loans` in the concrete
one-book one-member state returns 201 with
`{"success": true, "message": "Book loan created successfully",
"data": null}` — the `data` payload is `None` (api.py line 687 builds
`StandardResponse` without a `data` argument), so no `transaction_id` is
returned, contradicting the claim that the response carries one. -/
theorem C3_counterexample :
    c3reply = Reply.ok 201
      { success := true, message := "Book loan created successfully",
        data := none } := by
  decide

/-- C3 (amended): every successful `POST /api/loans` returns HTTP 201 with
the fixed success envelope whose `data` field is null; the new
transaction's identity is not part of the response. -/
theorem C3_amended_response_shape (db : DB) (loan : LoanCreate) (db' : DB)
    (s : Nat) (r : StandardResponse)
    (h : post_loans db loan = (db', Reply.ok s r)) :
    s = 201 ∧ r = { success := true,
                    message := "Book loan created successfully",
                    data := none } := by
  obtain ⟨hv, hcl⟩ := post_loans_ok_parts h
  obtain ⟨_, hs, hr, _⟩ := create_loan_ok_parts hcl
  exact ⟨hs, hr⟩

/-- C3 witness: the amended response-shape theorem applied to the concrete
successful borrow. -/
theorem C3_amended_witness :
    (201 : Nat) = 201 ∧
    ({ success := true, message := "Book loan created successfully",
       data := none } : StandardResponse) =
      { success := true, message := "Book loan created successfully",
        data := none } :=
  C3_amended_response_shape c6db c6loan (post_loans c6db c6loan).1 201
    { success := true, message := "Book loan created successfully", data := none }
    (by rfl)

/-- A create-book request duplicating the ISBN of `c6book`. -/
def c8book : BookCreate :=
  { isbn := "9990001112", title := "Other", total_copies := 1, category_id := 1 }

/-- A create-member request duplicating the membership number of
`c6member`. -/
def c8member : MemberCreate :=
  { membership_number := "M001", first_name := "Bob", last_name := "Ray",
    membership_start_date := 0, membership_expiry_date := 10 }

/-- C8: a duplicate-ISBN `POST /api/books` and a duplicate-membership-number
`POST /api/members` do fail without inserting a row (the violating
statement is rolled back, the database equals the input state), but the
client sees HTTP 500 "Database error", NOT the 409 Conflict the spec and
the handlers' own `except mysql.connector.IntegrityError` branches
(api.py lines 509-511, 1026-1028) intend.  The `IntegrityError` is raised
inside `execute_transaction` / `execute_query`, whose
`except mysql.connector.Error` clauses (lines 285-289, 319-323) catch it —
`IntegrityError` subclasses `mysql.connector.Error` — and re-raise
`HTTPException(500)`, which the handlers' 409 mapping cannot catch: the
409 branch is unreachable. -/
theorem C8_duplicate_conflict_500 :
    create_book c6db c8book =
      (c6db, Reply.err ⟨500, "Database error: Duplicate entry for key books.isbn"⟩) ∧
    create_member c6db c8member =
      (c6db, Reply.err ⟨500, "Database error: Duplicate entry for key members"⟩) ∧
    (create_book c6db c8book).2 ≠
      Reply.err ⟨409, "Book with this ISBN already exists"⟩ ∧
    (create_member c6db c8member).2 ≠
      Reply.err ⟨409, "Member with this membership number or email already exists"⟩ := by
  decide

theorem length_insertByTitle (x : Book) (l : List Book) :
    (insertByTitle x l).length = l.length + 1 := by
  induction l with
  | nil => rfl
  | cons y ys ih =>
    unfold insertByTitle
    split
    · simp
    · simp [ih]

theorem length_sortByTitle (l : List Book) : (sortByTitle l).length = l.length := by
  induction l with
  | nil => rfl
  | cons x xs ih => simp [sortByTitle, length_insertByTitle, ih]

/-- C9: for any accepted listing request (`page ≥ 1`, `1 ≤ limit ≤ 100`),
`GET /api/books` reports `total` as the count of all matching rows
(pagination ignored), `pages = ⌈total / limit⌉`, and returns exactly the
`LIMIT limit OFFSET (page-1)*limit` slice of the ordered filtered set —
whose length is `min limit (total - offset)`. -/
theorem C9_pagination (db : DB) (page limit : Nat) (search category : Option String)
    (available : Option Bool) (db' : DB) (body : BookListResponse)
    (hp : 1 ≤ page) (hl1 : 1 ≤ limit) (hl2 : limit ≤ 100)
    (h : get_books db page limit search category available = (db', Reply.ok 200 body)) :
    body.pagination.pages = body.pagination.total ⌈/⌉ limit ∧
    body.pagination.total =
      (db.books.filter (booksMatch db search category available)).length ∧
    body.data = ((sortByTitle (db.books.filter
      (booksMatch db search category available))).drop ((page - 1) * limit)).take limit ∧
    body.data.length = min limit (body.pagination.total - (page - 1) * limit) := by
  unfold get_books at h
  rw [if_neg] at h
  · injection h with h1 h2
    injection h2 with hs h3
    subst h3
    refine ⟨(Nat.ceilDiv_eq_add_pred_div _ _).symm, rfl, rfl, ?_⟩
    simp [List.length_take, List.length_drop, length_sortByTitle]
  · simp [hp, hl1, hl2]

/-- The `i`-th of 95 sample catalogue rows. -/
def c9mkBook (i : Nat) : Book :=
  { book_id := i + 1, isbn := "isbn-000000", title := "t", subtitle := none,
    publication_date := none, edition := 1, pages := none, language := "English",
    book_condition := "New", location_shelf := none, total_copies := 1,
    available_copies := 1, price := none, publisher_id := none, category_id := 1,
    created_at := 0, updated_at := 0 }

/-- A catalogue of 95 books and nothing else. -/
def c9db : DB :=
  { books := (List.range 95).map c9mkBook, members := [], loans := [],
    book_authors := [], categories := [], authors := [], next_book_id := 96,
    next_member_id := 1, next_transaction_id := 1, now := 0 }

/-- The body returned by `GET /api/books?page=10&limit=10` on `c9db`. -/
def c9body : BookListResponse :=
  match (get_books c9db 10 10 none none none).2 with
  | Reply.ok _ b => b
  | Reply.err _ =>
    { data := [], pagination := { page := 0, limit := 0, total := 0, pages := 0 } }

/-- C9 witness: the pagination theorem applied to the spec's concrete
scenario — 95 matching rows with `limit = 10` give `pages = 10`, and page
10 returns exactly the 5 rows at offset 90. -/
theorem C9_witness :
    c9body.pagination.pages = c9body.pagination.total ⌈/⌉ 10 ∧
    c9body.pagination.total =
      (c9db.books.filter (booksMatch c9db none none none)).length ∧
    c9body.data = ((sortByTitle (c9db.books.filter
      (booksMatch c9db none none none))).drop 90).take 10 ∧
    c9body.data.length = min 10 (c9body.pagination.total - 90) ∧
    c9body.pagination.total = 95 ∧
    c9body.pagination.pages = 10 ∧
    c9body.data.length = 5 := by
  have happ := C9_pagination c9db 10 10 none none none c9db c9body (by decide)
    (by decide) (by decide) (by rfl)
  exact ⟨happ.1, happ.2.1, happ.2.2.1, happ.2.2.2, by decide, by decide, by decide⟩

theorem update_member_members (db : DB) (id : Nat) (u : MemberUpdate) :
    (update_member db id u).1.members = db.members ∨
    (update_member db id u).1.members = db.members.map (fun m =>
      if m.member_id = id then applyMemberUpdate u db.now m else m) := by
  unfold update_member
  split
  · exact Or.inl rfl
  split
  · exact Or.inl rfl
  split
  · exact Or.inl rfl
  · by_cases hf : u.hasFieldUpdates = true
    · exact Or.inr (by simp [hf])
    · exact Or.inl (by simp [hf])

theorem applyBookUpdate_frame (u : BookUpdate) (t : Int) (b : Book) :
    (applyBookUpdate u t b).book_id = b.book_id ∧
    (u.isbn = none → (applyBookUpdate u t b).isbn = b.isbn) ∧
    (u.title = none → (applyBookUpdate u t b).title = b.title) ∧
    (u.subtitle = none → (applyBookUpdate u t b).subtitle = b.subtitle) ∧
    (u.publication_date = none →
      (applyBookUpdate u t b).publication_date = b.publication_date) ∧
    (u.edition = none → (applyBookUpdate u t b).edition = b.edition) ∧
    (u.pages = none → (applyBookUpdate u t b).pages = b.pages) ∧
    (u.language = none → (applyBookUpdate u t b).language = b.language) ∧
    (u.book_condition = none →
      (applyBookUpdate u t b).book_condition = b.book_condition) ∧
    (u.location_shelf = none →
      (applyBookUpdate u t b).location_shelf = b.location_shelf) ∧
    (u.total_copies = none → (applyBookUpdate u t b).total_copies = b.total_copies) ∧
    (u.available_copies = none →
      (applyBookUpdate u t b).available_copies = b.available_copies) ∧
    (u.price = none → (applyBookUpdate u t b).price = b.price) ∧
    (u.publisher_id = none → (applyBookUpdate u t b).publisher_id = b.publisher_id) ∧
    (u.category_id = none → (applyBookUpdate u t b).category_id = b.category_id) ∧
    ((applyBookUpdate u t b).subtitle = none → b.subtitle = none) ∧
    ((applyBookUpdate u t b).publication_date = none → b.publication_date = none) ∧
    ((applyBookUpdate u t b).pages = none → b.pages = none) ∧
    ((applyBookUpdate u t b).location_shelf = none → b.location_shelf = none) ∧
    ((applyBookUpdate u t b).price = none → b.price = none) ∧
    ((applyBookUpdate u t b).publisher_id = none → b.publisher_id = none) :=
  ⟨rfl,
   fun h => by simp [applyBookUpdate, h],
   fun h => by simp [applyBookUpdate, h],
   fun h => by simp [applyBookUpdate, h],
   fun h => by simp [applyBookUpdate, h],
   fun h => by simp [applyBookUpdate, h],
   fun h => by simp [applyBookUpdate, h],
   fun h => by simp [applyBookUpdate, h],
   fun h => by simp [applyBookUpdate, h],
   fun h => by simp [applyBookUpdate, h],
   fun h => by simp [applyBookUpdate, h],
   fun h => by simp [applyBookUpdate, h],
   fun h => by simp [applyBookUpdate, h],
   fun h => by simp [applyBookUpdate, h],
   fun h => by simp [applyBookUpdate, h],
   fun h => by cases hs : u.subtitle <;> simp_all [applyBookUpdate],
   fun h => by cases hs : u.publication_date <;> simp_all [applyBookUpdate],
   fun h => by cases hs : u.pages <;> simp_all [applyBookUpdate],
   fun h => by cases hs : u.location_shelf <;> simp_all [applyBookUpdate],
   fun h => by cases hs : u.price <;> simp_all [applyBookUpdate],
   fun h => by cases hs : u.publisher_id <;> simp_all [applyBookUpdate]⟩

theorem applyMemberUpdate_frame (u : MemberUpdate) (t : Int) (m : Member) :
    (applyMemberUpdate u t m).member_id = m.member_id ∧
    (u.membership_number = none →
      (applyMemberUpdate u t m).membership_number = m.membership_number) ∧
    (u.first_name = none → (applyMemberUpdate u t m).first_name = m.first_name) ∧
    (u.last_name = none → (applyMemberUpdate u t m).last_name = m.last_name) ∧
    (u.date_of_birth = none →
      (applyMemberUpdate u t m).date_of_birth = m.date_of_birth) ∧
    (u.gender = none → (applyMemberUpdate u t m).gender = m.gender) ∧
    (u.email = none → (applyMemberUpdate u t m).email = m.email) ∧
    (u.phone_number = none →
      (applyMemberUpdate u t m).phone_number = m.phone_number) ∧
    (u.address = none → (applyMemberUpdate u t m).address = m.address) ∧
    (u.city = none → (applyMemberUpdate u t m).city = m.city) ∧
    (u.postal_code = none → (applyMemberUpdate u t m).postal_code = m.postal_code) ∧
    (u.membership_type = none →
      (applyMemberUpdate u t m).membership_type = m.membership_type) ∧
    (u.membership_start_date = none →
      (applyMemberUpdate u t m).membership_start_date = m.membership_start_date) ∧
    (u.membership_expiry_date = none →
      (applyMemberUpdate u t m).membership_expiry_date = m.membership_expiry_date) ∧
    (u.is_active = none → (applyMemberUpdate u t m).is_active = m.is_active) ∧
    (u.max_books_allowed = none →
      (applyMemberUpdate u t m).max_books_allowed = m.max_books_allowed) ∧
    ((applyMemberUpdate u t m).date_of_birth = none → m.date_of_birth = none) ∧
    ((applyMemberUpdate u t m).gender = none → m.gender = none) ∧
    ((applyMemberUpdate u t m).email = none → m.email = none) ∧
    ((applyMemberUpdate u t m).phone_number = none → m.phone_number = none) ∧
    ((applyMemberUpdate u t m).address = none → m.address = none) ∧
    ((applyMemberUpdate u t m).city = none → m.city = none) ∧
    ((applyMemberUpdate u t m).postal_code = none → m.postal_code = none) :=
  ⟨rfl,
   fun h => by simp [applyMemberUpdate, h],
   fun h => by simp [applyMemberUpdate, h],
   fun h => by simp [applyMemberUpdate, h],
   fun h => by simp [applyMemberUpdate, h],
   fun h => by simp [applyMemberUpdate, h],
   fun h => by simp [applyMemberUpdate, h],
   fun h => by simp [applyMemberUpdate, h],
   fun h => by simp [applyMemberUpdate, h],
   fun h => by simp [applyMemberUpdate, h],
   fun h => by simp [applyMemberUpdate, h],
   fun h => by simp [applyMemberUpdate, h],
   fun h => by simp [applyMemberUpdate, h],
   fun h => by simp [applyMemberUpdate, h],
   fun h => by simp [applyMemberUpdate, h],
   fun h => by simp [applyMemberUpdate, h],
   fun h => by cases hs : u.date_of_birth <;> simp_all [applyMemberUpdate],
   fun h => by cases hs : u.gender <;> simp_all [applyMemberUpdate],
   fun h => by cases hs : u.email <;> simp_all [applyMemberUpdate],
   fun h => by cases hs : u.phone_number <;> simp_all [applyMemberUpdate],
   fun h => by cases hs : u.address <;> simp_all [applyMemberUpdate],
   fun h => by cases hs : u.city <;> simp_all [applyMemberUpdate],
   fun h => by cases hs : u.postal_code <;> simp_all [applyMemberUpdate]⟩

/-- C10: in `PUT /api/books/{id}` and `PUT /api/members/{id}`, a field that
is null or omitted in the request is never written: the stored row keeps
its old value for that column, no nullable column can be cleared to null
through these endpoints, and a request in which every field is
null/omitted issues no UPDATE at all, leaving the whole database —
`updated_at` included — unchanged.  Every stored row after an update is
either the untouched old row or `applyBookUpdate`/`applyMemberUpdate` of
it, which copy all absent fields. -/
theorem C10_update_null_frame (db : DB) (id : Nat) (u : BookUpdate)
    (mid : Nat) (mu : MemberUpdate) :
    (u.hasFieldUpdates = false → u.authors = none → (update_book db id u).1 = db) ∧
    (∀ b' ∈ (update_book db id u).1.books, ∃ b ∈ db.books,
      b'.book_id = b.book_id ∧
      (u.isbn = none → b'.isbn = b.isbn) ∧
      (u.title = none → b'.title = b.title) ∧
      (u.subtitle = none → b'.subtitle = b.subtitle) ∧
      (u.publication_date = none → b'.publication_date = b.publication_date) ∧
      (u.edition = none → b'.edition = b.edition) ∧
      (u.pages = none → b'.pages = b.pages) ∧
      (u.language = none → b'.language = b.language) ∧
      (u.book_condition = none → b'.book_condition = b.book_condition) ∧
      (u.location_shelf = none → b'.location_shelf = b.location_shelf) ∧
      (u.total_copies = none → b'.total_copies = b.total_copies) ∧
      (u.available_copies = none → b'.available_copies = b.available_copies) ∧
      (u.price = none → b'.price = b.price) ∧
      (u.publisher_id = none → b'.publisher_id = b.publisher_id) ∧
      (u.category_id = none → b'.category_id = b.category_id) ∧
      (b'.subtitle = none → b.subtitle = none) ∧
      (b'.publication_date = none → b.publication_date = none) ∧
      (b'.pages = none → b.pages = none) ∧
      (b'.location_shelf = none → b.location_shelf = none) ∧
      (b'.price = none → b.price = none) ∧
      (b'.publisher_id = none → b.publisher_id = none)) ∧
    (mu.hasFieldUpdates = false → (update_member db mid mu).1 = db) ∧
    (∀ m' ∈ (update_member db mid mu).1.members, ∃ m ∈ db.members,
      m'.member_id = m.member_id ∧
      (mu.membership_number = none → m'.membership_number = m.membership_number) ∧
      (mu.first_name = none → m'.first_name = m.first_name) ∧
      (mu.last_name = none → m'.last_name = m.last_name) ∧
      (mu.date_of_birth = none → m'.date_of_birth = m.date_of_birth) ∧
      (mu.gender = none → m'.gender = m.gender) ∧
      (mu.email = none → m'.email = m.email) ∧
      (mu.phone_number = none → m'.phone_number = m.phone_number) ∧
      (mu.address = none → m'.address = m.address) ∧
      (mu.city = none → m'.city = m.city) ∧
      (mu.postal_code = none → m'.postal_code = m.postal_code) ∧
      (mu.membership_type = none → m'.membership_type = m.membership_type) ∧
      (mu.membership_start_date = none →
        m'.membership_start_date = m.membership_start_date) ∧
      (mu.membership_expiry_date = none →
        m'.membership_expiry_date = m.membership_expiry_date) ∧
      (mu.is_active = none → m'.is_active = m.is_active) ∧
      (mu.max_books_allowed = none → m'.max_books_allowed = m.max_books_allowed) ∧
      (m'.date_of_birth = none → m.date_of_birth = none) ∧
      (m'.gender = none → m.gender = none) ∧
      (m'.email = none → m.email = none) ∧
      (m'.phone_number = none → m.phone_number = none) ∧
      (m'.address = none → m.address = none) ∧
      (m'.city = none → m.city = none) ∧
      (m'.postal_code = none → m.postal_code = none)) := by
  refine ⟨?_, ?_, ?_, ?_⟩
  · intro hf hauth
    unfold update_book
    split
    · rfl
    split
    · rfl
    split
    · rfl
    · simp [hf, hauth]
  · intro b' hb'
    rcases update_book_books db id u with h | ⟨h, _⟩
    · rw [h] at hb'
      exact ⟨b', hb', rfl, fun _ => rfl, fun _ => rfl, fun _ => rfl, fun _ => rfl,
        fun _ => rfl, fun _ => rfl, fun _ => rfl, fun _ => rfl, fun _ => rfl,
        fun _ => rfl, fun _ => rfl, fun _ => rfl, fun _ => rfl, fun _ => rfl,
        fun hh => hh, fun hh => hh, fun hh => hh, fun hh => hh, fun hh => hh,
        fun hh => hh⟩
    · rw [h] at hb'
      rcases List.mem_map.1 hb' with ⟨b, hb, rfl⟩
      by_cases hid : b.book_id = id
      · simp only [if_pos hid]
        obtain ⟨f0, f1, f2, f3, f4, f5, f6, f7, f8, f9, f10, f11, f12, f13, f14,
          r0, r1, r2, r3, r4, r5⟩ := applyBookUpdate_frame u db.now b
        exact ⟨b, hb, f0, f1, f2, f3, f4, f5, f6, f7, f8, f9, f10, f11, f12, f13,
          f14, r0, r1, r2, r3, r4, r5⟩
      · simp only [if_neg hid]
        exact ⟨b, hb, rfl, fun _ => rfl, fun _ => rfl, fun _ => rfl, fun _ => rfl,
          fun _ => rfl, fun _ => rfl, fun _ => rfl, fun _ => rfl, fun _ => rfl,
          fun _ => rfl, fun _ => rfl, fun _ => rfl, fun _ => rfl, fun _ => rfl,
          fun hh => hh, fun hh => hh, fun hh => hh, fun hh => hh, fun hh => hh,
          fun hh => hh⟩
  · intro hf
    unfold update_member
    split
    · rfl
    split
    · rfl
    split
    · rfl
    · simp [hf]
  · intro m' hm'
    rcases update_member_members db mid mu with h | h
    · rw [h] at hm'
      exact ⟨m', hm', rfl, fun _ => rfl, fun _ => rfl, fun _ => rfl, fun _ => rfl,
        fun _ => rfl, fun _ => rfl, fun _ => rfl, fun _ => rfl, fun _ => rfl,
        fun _ => rfl, fun _ => rfl, fun _ => rfl, fun _ => rfl, fun _ => rfl,
        fun _ => rfl, fun hh => hh, fun hh => hh, fun hh => hh, fun hh => hh,
        fun hh => hh, fun hh => hh, fun hh => hh⟩
    · rw [h] at hm'
      rcases List.mem_map.1 hm' with ⟨m, hm, rfl⟩
      by_cases hid : m.member_id = mid
      · simp only [if_pos hid]
        obtain ⟨g0, g1, g2, g3, g4, g5, g6, g7, g8, g9, g10, g11, g12, g13, g14,
          g15, s0, s1, s2, s3, s4, s5, s6⟩ := applyMemberUpdate_frame mu db.now m
        exact ⟨m, hm, g0, g1, g2, g3, g4, g5, g6, g7, g8, g9, g10, g11, g12, g13,
          g14, g15, s0, s1, s2, s3, s4, s5, s6⟩
      · simp only [if_neg hid]
        exact ⟨m, hm, rfl, fun _ => rfl, fun _ => rfl, fun _ => rfl, fun _ => rfl,
          fun _ => rfl, fun _ => rfl, fun _ => rfl, fun _ => rfl, fun _ => rfl,
          fun _ => rfl, fun _ => rfl, fun _ => rfl, fun _ => rfl, fun _ => rfl,
          fun _ => rfl, fun hh => hh, fun hh => hh, fun hh => hh, fun hh => hh,
          fun hh => hh, fun hh => hh, fun hh => hh⟩

/-- C10 witness: the frame theorem applied to the one-book one-member
state with the all-fields-omitted update bodies. -/
theorem C10_witness :
    (update_book c6db 1 ({} : BookUpdate)).1 = c6db ∧
    (update_member c6db 1 ({} : MemberUpdate)).1 = c6db ∧
    ∃ b ∈ c6db.books, c6book.book_id = b.book_id ∧ c6book.isbn = b.isbn := by
  have happ := C10_update_null_frame c6db 1 ({} : BookUpdate) 1 ({} : MemberUpdate)
  refine ⟨happ.1 rfl rfl, happ.2.2.1 rfl, ?_⟩
  obtain ⟨b, hb, hbid, hisbn, _⟩ := happ.2.1 c6book (by decide)
  exact ⟨b, hb, hbid, hisbn rfl⟩

theorem zip_range'_mem {α : Type} (reqs : List α) :
    ∀ (s t : Nat), t ∈ List.range' s reqs.length →
    ∃ r ∈ reqs, (t, r) ∈ (List.range' s reqs.length).zip reqs := by
  induction reqs with
  | nil =>
    intro s t ht
    simp only [List.length_nil] at ht
    rw [List.mem_range'_1] at ht
    omega
  | cons r rs ih =>
    intro s t ht
    have hsplit : List.range' s (r :: rs).length =
        s :: List.range' (s + 1) rs.length := rfl
    have hzip : (List.range' s (r :: rs).length).zip (r :: rs) =
        (s, r) :: (List.range' (s + 1) rs.length).zip rs := rfl
    rw [hsplit] at ht
    rw [hzip]
    rcases List.mem_cons.1 ht with rfl | ht'
    · exact ⟨r, List.mem_cons_self _ _, List.mem_cons_self _ _⟩
    · obtain ⟨r', hr', hm⟩ := ih (s + 1) t ht'
      exact ⟨r', List.mem_cons_of_mem _ hr', List.mem_cons_of_mem _ hm⟩

theorem runBorrowSeq_parts (bid : Nat) :
    ∀ (reqs : List LoanCreate) (db db' : DB),
    (∀ r ∈ reqs, r.book_id = bid) →
    runBorrowSeq reqs db = some db' →
    (∀ l ∈ db.loans, l.transaction_id < db.next_transaction_id) →
    (∀ b0, findBook db bid = some b0 →
      ∃ b1, findBook db' bid = some b1 ∧
        b1.available_copies = b0.available_copies - reqs.length) ∧
    db'.members = db.members ∧
    db'.now = db.now ∧
    db'.next_transaction_id = db.next_transaction_id + reqs.length ∧
    db'.loans = db.loans ++
      ((List.range' db.next_transaction_id reqs.length).zip reqs).map
        (fun p => newLoanRow p.1 db.now p.2) ∧
    (∀ l ∈ db'.loans, l.transaction_id < db'.next_transaction_id) := by
  intro reqs
  induction reqs with
  | nil =>
    intro db db' hreqs hrun hfresh
    have hdb : db' = db := by
      have := hrun
      simp [runBorrowSeq] at this
      exact this.symm
    subst hdb
    refine ⟨?_, rfl, rfl, by simp, by simp, hfresh⟩
    intro b0 hb0
    exact ⟨b0, hb0, by simp⟩
  | cons r rs ih =>
    intro db db' hreqs hrun hfresh
    rcases hp : post_loans db r with ⟨dbx, rep⟩
    cases rep with
    | err e =>
      rw [runBorrowSeq, hp] at hrun
      simp at hrun
    | ok st resp =>
      rw [runBorrowSeq, hp] at hrun
      obtain ⟨hv, hcl⟩ := post_loans_ok_parts hp
      obtain ⟨hdbx, _, _, book, hbook, hav, member, hmem2, hact, hcount⟩ :=
        create_loan_ok_parts hcl
      subst hdbx
      have hrbid : r.book_id = bid := hreqs r (List.mem_cons_self _ _)
      have hfresh1 : ∀ l ∈ (decrementAvailable (insertLoanRow db r)
          r.book_id).loans, l.transaction_id <
          (decrementAvailable (insertLoanRow db r)
            r.book_id).next_transaction_id := by
        intro l hl
        have hl' : l ∈ db.loans ++ [newLoanRow db.next_transaction_id db.now r] := hl
        rcases List.mem_append.1 hl' with h | h
        · have := hfresh l h
          simp only [decrementAvailable, insertLoanRow]
          omega
        · simp only [List.mem_singleton] at h
          subst h
          simp [newLoanRow, decrementAvailable, insertLoanRow]
      obtain ⟨hfb, hmm, hnow, hnext, hloans, hfr⟩ := ih _ db'
        (fun x hx => hreqs x (List.mem_cons_of_mem _ hx)) hrun hfresh1
      refine ⟨?_, ?_, ?_, ?_, ?_, hfr⟩
      · intro b0 hb0
        have hbid0 : b0.book_id = bid := by
          simpa using List.find?_some hb0
        have hb1 : findBook (decrementAvailable (insertLoanRow db r)
            r.book_id) bid =
            some { b0 with available_copies := b0.available_copies - 1 } := by
          rw [findBook_decrementAvailable]
          have hins : findBook (insertLoanRow db r) bid = findBook db bid := rfl
          rw [hins, hb0]
          simp [hbid0, hrbid]
        obtain ⟨b1, hb1', he⟩ := hfb _ hb1
        refine ⟨b1, hb1', ?_⟩
        have : b1.available_copies = b0.available_copies - 1 - rs.length := he
        simp only [List.length_cons]
        omega
      · rw [hmm]
        rfl
      · rw [hnow]
        rfl
      · rw [hnext]
        simp only [decrementAvailable, insertLoanRow, List.length_cons]
        omega
      · rw [hloans]
        show db.loans ++ [newLoanRow db.next_transaction_id db.now r] ++
            ((List.range' (db.next_transaction_id + 1) rs.length).zip rs).map
              (fun p => newLoanRow p.1 db.now p.2) =
          db.loans ++
            ((List.range' db.next_transaction_id (r :: rs).length).zip (r :: rs)).map
              (fun p => newLoanRow p.1 db.now p.2)
        rw [List.append_assoc]
        rfl

theorem runReturns_parts (bid : Nat) :
    ∀ (ts : List Nat) (db : DB),
    (∀ t ∈ ts, ∀ l ∈ db.loans, l.transaction_id = t →
      l.loan_status = LoanStatus.Active ∧ l.book_id = bid) →
    (∀ t ∈ ts, ∃ l ∈ db.loans, l.transaction_id = t) →
    ts.Nodup →
    ∃ db', runReturns ts db = some db' ∧
      ∀ b0, findBook db bid = some b0 →
        ∃ b', findBook db' bid = some b' ∧
          b'.available_copies = b0.available_copies + ts.length := by
  intro ts
  induction ts with
  | nil =>
    intro db hall hex hnd
    exact ⟨db, rfl, fun b0 hb0 => ⟨b0, hb0, by simp⟩⟩
  | cons t ts ih =>
    intro db hall hex hnd
    rw [List.nodup_cons] at hnd
    obtain ⟨l0, hl0mem, hl0t⟩ := hex t (List.mem_cons_self _ _)
    obtain ⟨hl0act, hl0bid⟩ := hall t (List.mem_cons_self _ _) l0 hl0mem hl0t
    have hfind : ∃ lf, db.loans.find? (fun l => decide (l.transaction_id = t ∧
        l.loan_status = LoanStatus.Active)) = some lf := by
      rw [← Option.isSome_iff_exists, List.find?_isSome]
      exact ⟨l0, hl0mem, by simp [hl0t, hl0act]⟩
    obtain ⟨lf, hfind⟩ := hfind
    have hlfmem := List.mem_of_find?_eq_some hfind
    have hlfprop : lf.transaction_id = t ∧ lf.loan_status = LoanStatus.Active := by
      simpa using List.find?_some hfind
    obtain ⟨-, hlfbid⟩ := hall t (List.mem_cons_self _ _) lf hlfmem hlfprop.1
    have hrb0 : return_book db t =
        (incrementAvailable (markLoanReturned db t) lf.book_id,
          Reply.ok 200 { message := "Book returned successfully" }) := by
      unfold return_book
      rw [hfind]
    rw [hlfbid] at hrb0
    have hrb : return_book db t =
        (incrementAvailable (markLoanReturned db t) bid,
          Reply.ok 200 { message := "Book returned successfully" }) := hrb0
    have hall1 : ∀ t' ∈ ts, ∀ l ∈ (incrementAvailable (markLoanReturned db t)
        bid).loans, l.transaction_id = t' →
        l.loan_status = LoanStatus.Active ∧ l.book_id = bid := by
      intro t' ht' l hl he
      have hl' : l ∈ (markLoanReturned db t).loans := hl
      rcases List.mem_map.1 hl' with ⟨x, hx, rfl⟩
      by_cases hxt : x.transaction_id = t
      · exfalso
        rw [if_pos hxt] at he
        have hxe : x.transaction_id = t' := he
        apply hnd.1
        rw [← hxt, hxe]
        exact ht'
      · rw [if_neg hxt] at he ⊢
        exact hall t' (List.mem_cons_of_mem _ ht') x hx he
    have hex1 : ∀ t' ∈ ts, ∃ l ∈ (incrementAvailable (markLoanReturned db t)
        bid).loans, l.transaction_id = t' := by
      intro t' ht'
      obtain ⟨l, hlm, hlt⟩ := hex t' (List.mem_cons_of_mem _ ht')
      have hne : l.transaction_id ≠ t := by
        rw [hlt]
        intro hh
        exact hnd.1 (hh ▸ ht')
      have hmem2 := List.mem_map_of_mem
        (fun x => if x.transaction_id = t then
            { x with loan_status := LoanStatus.Returned,
                     return_date := some db.now,
                     updated_at := db.now }
          else x) hlm
      simp only [] at hmem2
      rw [if_neg hne] at hmem2
      exact ⟨l, hmem2, hlt⟩
    obtain ⟨db', hrun', hfbprop⟩ := ih (incrementAvailable (markLoanReturned db t) bid)
      hall1 hex1 hnd.2
    refine ⟨db', ?_, ?_⟩
    · rw [runReturns, hrb]
      exact hrun'
    · intro b0 hb0
      have hb0bid : b0.book_id = bid := by
        simpa using List.find?_some hb0
      have hb1 : findBook (incrementAvailable (markLoanReturned db t) bid) bid =
          some { b0 with available_copies := b0.available_copies + 1 } := by
        rw [findBook_incrementAvailable]
        have hmk : findBook (markLoanReturned db t) bid = findBook db bid := rfl
        rw [hmk, hb0]
        simp [hb0bid]
      obtain ⟨b', hb', he⟩ := hfbprop _ hb1
      refine ⟨b', hb', ?_⟩
      have : b'.available_copies = b0.available_copies + 1 + ts.length := he
      simp only [List.length_cons]
      omega

/-- C7: starting from a book with `available_copies = k`, any sequence of
successful borrows of that book — by any members, one `POST /api/loans`
per listed request body — leaves `available_copies = k - N` where `N` is
the number of calls, and then returning each of the `N` created loan
transactions (their ids are the `N` consecutive `AUTO_INCREMENT` values)
succeeds and restores `available_copies` to exactly `k`. -/
theorem C7_borrow_return_roundtrip (db : DB) (bid : Nat) (reqs : List LoanCreate)
    (b : Book) (db1 : DB)
    (hreqs : ∀ r ∈ reqs, r.book_id = bid)
    (hfresh : ∀ l ∈ db.loans, l.transaction_id < db.next_transaction_id)
    (hb : findBook db bid = some b)
    (hrun : runBorrowSeq reqs db = some db1) :
    (∃ b1, findBook db1 bid = some b1 ∧
      b1.available_copies = b.available_copies - reqs.length) ∧
    ∃ db2 b2,
      runReturns (List.range' db.next_transaction_id reqs.length) db1 = some db2 ∧
      findBook db2 bid = some b2 ∧
      b2.available_copies = b.available_copies := by
  obtain ⟨hfb, hmm, hnow, hnext, hloans, hfr⟩ :=
    runBorrowSeq_parts bid reqs db db1 hreqs hrun hfresh
  obtain ⟨b1, hb1, he1⟩ := hfb b hb
  refine ⟨⟨b1, hb1, he1⟩, ?_⟩
  have hall : ∀ t ∈ List.range' db.next_transaction_id reqs.length,
      ∀ l ∈ db1.loans, l.transaction_id = t →
      l.loan_status = LoanStatus.Active ∧ l.book_id = bid := by
    intro t ht l hl he
    rw [hloans] at hl
    rcases List.mem_append.1 hl with h | h
    · exfalso
      have h1 := hfresh l h
      have h2 := (List.mem_range'_1.1 ht).1
      omega
    · rcases List.mem_map.1 h with ⟨⟨u, rq⟩, hu, rfl⟩
      exact ⟨rfl, hreqs rq (List.of_mem_zip hu).2⟩
  have hex : ∀ t ∈ List.range' db.next_transaction_id reqs.length,
      ∃ l ∈ db1.loans, l.transaction_id = t := by
    intro t ht
    obtain ⟨rq, hrq, hm⟩ := zip_range'_mem reqs db.next_transaction_id t ht
    refine ⟨newLoanRow t db.now rq, ?_, rfl⟩
    rw [hloans]
    exact List.mem_append.2 (Or.inr (List.mem_map_of_mem _ hm))
  obtain ⟨db2, hrun2, hprop⟩ := runReturns_parts bid
    (List.range' db.next_transaction_id reqs.length) db1 hall hex
    (List.nodup_range' _ _)
  obtain ⟨b2, hb2, he2⟩ := hprop b1 hb1
  refine ⟨db2, b2, hrun2, hb2, ?_⟩
  simp only [List.length_range'] at he2
  omega

/-- A second member, so the borrow sequence of the witness involves two
distinct members. -/
def c7member2 : Member :=
  { c6member with
      member_id := 2
      membership_number := "M002"
      first_name := "Ben" }

/-- One five-copy book and two members. -/
def c7db : DB :=
  { c6db with
      members := [c6member, c7member2]
      next_member_id := 3 }

/-- Borrow requests for book 1: one by member 1, one by member 2. -/
def c7reqs : List LoanCreate :=
  [c6loan, { c6loan with member_id := 2 }]

/-- The state after the two borrows by the two members. -/
def c7db1 : DB := (runBorrowSeq c7reqs c7db).getD c7db

/-- C7 witness: the roundtrip theorem applied to the concrete state — two
successful borrows of the five-copy book by two different members leave 3
copies, and returning transactions 1 and 2 restores 5. -/
theorem C7_witness :
    (∃ b1, findBook c7db1 1 = some b1 ∧
      b1.available_copies = c6book.available_copies - (c7reqs.length : Int)) ∧
    ∃ db2 b2,
      runReturns (List.range' c7db.next_transaction_id c7reqs.length) c7db1 =
        some db2 ∧
      findBook db2 1 = some b2 ∧
      b2.available_copies = c6book.available_copies :=
  C7_borrow_return_roundtrip c7db 1 c7reqs c6book c7db1 (by decide) (by decide)
    (by rfl) (by rfl)
